import Mathlib

/-!
# Verification of the flocc-studio model compiler and simulation engine

This file gives a shallow embedding, in Lean 4, of the behavior compiler
(`src/lib/flocc/compiler.ts`) and the simulation engine
(`src/lib/flocc/SimulationEngine.ts`) of the flocc-studio repository, and
settles a list of claims about them.

Modelling conventions:

* JavaScript numbers are modelled as exact rationals; `NaN` is modelled
  explicitly (`JNum := Option ℚ`, with `none` standing for NaN, which
  propagates through arithmetic and makes every comparison false, as in JS).
  `Math.sqrt` is modelled by `Rat.sqrt`, which agrees with the JS function on
  every perfect square used in a concrete theorem below; transcendental
  functions (`Math.cos`, `Math.sin`, `Math.atan2`) and the float constant
  `Math.PI` are abstracted into a `JsMath` structure that the compiled code is
  parametric over.
* The flocc npm library (`Environment`, `Agent`, `KDTree`, `utils.random`) is
  an external dependency, not part of this repository's sources; the pieces of
  it the compiled code calls are modelled from the spec (each such definition
  carries a `Modelled from the spec:` comment).  In particular the seeded PRNG
  is modelled as an oracle stream: a list of rationals holding the successive
  values returned by `utils.random`.
-/

namespace FloccStudio

/-- A JavaScript dynamic value, as stored in behavior parameter maps and in
agent property bags.  `undefVal` stands for `undefined` (and for the `null` that
flocc's `get` returns on a missing key, which the source code only ever
distinguishes from `undefined` in ways irrelevant here); `nan` is the number
NaN.  String-to-number coercion of numeric string literals and string
concatenation by `+` are not modelled: behavior parameters and agent
properties are authored as numbers, `"$ref"` strings, or identifiers. -/
inductive JsVal where
  | num (q : ℚ)
  | str (s : String)
  | bool (b : Bool)
  | nan
  | undefVal
  deriving DecidableEq, Repr

/-- A JavaScript number: `none` is NaN, `some q` is the (exact) number `q`. -/
def JNum : Type := Option ℚ

instance : DecidableEq JNum := inferInstanceAs (DecidableEq (Option ℚ))

instance : Repr JNum := inferInstanceAs (Repr (Option ℚ))

namespace JNum

/-- JS addition on numbers: NaN propagates. -/
def add : JNum → JNum → JNum
  | some a, some b => some (a + b)
  | _, _ => none

/-- JS subtraction on numbers: NaN propagates. -/
def sub : JNum → JNum → JNum
  | some a, some b => some (a - b)
  | _, _ => none

/-- JS multiplication on numbers: NaN propagates. -/
def mul : JNum → JNum → JNum
  | some a, some b => some (a * b)
  | _, _ => none

/-- JS division on numbers: NaN propagates.  Division by zero (which would be
±Infinity in JS) is guarded against at every call site of the source code, so
it is left at Lean's convention. -/
def div : JNum → JNum → JNum
  | some a, some b => some (a / b)
  | _, _ => none

/-- JS `<`: any comparison with NaN is false. -/
def lt : JNum → JNum → Bool
  | some a, some b => decide (a < b)
  | _, _ => false

/-- JS `<=`: any comparison with NaN is false. -/
def le : JNum → JNum → Bool
  | some a, some b => decide (a ≤ b)
  | _, _ => false

/-- `Math.sqrt`: NaN on NaN and on negative inputs.  `Rat.sqrt` models the
float square root; it is exact on perfect squares (the only inputs at which a
theorem below evaluates it). -/
def sqrt : JNum → JNum
  | some a => if a < 0 then none else some (Rat.sqrt a)
  | none => none

/-- `Math.abs`: NaN propagates. -/
def abs : JNum → JNum
  | some a => some |a|
  | none => none

/-- `Math.min` of two numbers: NaN propagates. -/
def min2 : JNum → JNum → JNum
  | some a, some b => some (min a b)
  | _, _ => none

/-- `Math.max` of two numbers: NaN propagates. -/
def max2 : JNum → JNum → JNum
  | some a, some b => some (max a b)
  | _, _ => none

end JNum

/-- JS `ToNumber` coercion of a dynamic value, as triggered by arithmetic:
booleans become 0/1, `undefined` and non-numeric strings (the only strings
occurring as behavior parameters are `"$ref"` markers and identifiers) become
NaN. -/
def JsVal.toNum : JsVal → JNum
  | .num q => some q
  | .str _ => none
  | .bool b => some (if b then 1 else 0)
  | .nan => none
  | .undefVal => none

/-- Store a JS number back into a dynamic value (`agent.set` of an arithmetic
result). -/
def JNum.toVal : JNum → JsVal
  | some q => .num q
  | none => .nan

/-- JS truthiness, as used by the compiler's `if (!targetTypeId) return null`
checks. -/
def JsVal.truthy : JsVal → Bool
  | .num q => q != 0
  | .str s => s ≠ ""
  | .bool b => b
  | .nan => false
  | .undefVal => false

/-- JS strict equality `===`: NaN is not equal to anything, values of
different types are never equal. -/
def JsVal.sEq : JsVal → JsVal → Bool
  | .num a, .num b => a == b
  | .str a, .str b => a == b
  | .bool a, .bool b => a == b
  | _, _ => false

/-- JS `??` (nullish coalescing): replaces `undefined` by the fallback. -/
def JsVal.orElse (v fallback : JsVal) : JsVal :=
  match v with
  | .undefVal => fallback
  | _ => v

/-- Look a key up in an association list (a JS object / `Record`), yielding
`undefined` when absent. -/
def lookupJs (m : List (String × JsVal)) (k : String) : JsVal :=
  match m.find? (fun p => p.1 = k) with
  | some p => p.2
  | none => .undefVal

/-- Overwrite (or insert) a key in an association list, as `agent.set` does. -/
def setJs (m : List (String × JsVal)) (k : String) (v : JsVal) :
    List (String × JsVal) :=
  match m with
  | [] => [(k, v)]
  | p :: rest => if p.1 = k then (k, v) :: rest else p :: setJs rest k v

/-! ## The JS `%` operator and the wraparound formula

`compiler.ts` wraps coordinates with `((nx % width) + width) % width`
(lines 168–171 and 199–202).  The JS `%` on numbers is the remainder that
truncates the quotient toward zero. -/

/-- Truncation toward zero, as JS division-remainder uses. -/
def jsTrunc (q : ℚ) : ℤ :=
  if q < 0 then ⌈q⌉ else ⌊q⌋

/-- The JS `%` operator on (finite, non-NaN) numbers: `a % b = a - b * trunc (a / b)`. -/
def jsMod (a b : ℚ) : ℚ :=
  a - b * jsTrunc (a / b)

/-- The compiler's wraparound formula `((nx % width) + width) % width`. -/
def jsWrap (a w : ℚ) : ℚ :=
  jsMod (jsMod a w + w) w

/-- Wraparound on a JS number: NaN propagates (`NaN % w` is NaN). -/
def JNum.wrap (v : JNum) (w : ℚ) : JNum :=
  match v with
  | some a => some (jsWrap a w)
  | none => none

/-! ## Model definition types (`src/types/index.ts`) -/

/-- A custom property definition of an agent type. -/
structure PropDef where
  name : String
  defaultValue : JsVal
  deriving DecidableEq, Repr

/-- A behavior descriptor: a kind tag, a parameter map, and an enabled flag.
The kind is kept as a string because the compiler's `switch` dispatches on the
runtime string (models arrive as JSON) and has a `default` case for unknown
kinds. -/
structure BehaviorS where
  type : String
  params : List (String × JsVal)
  enabled : Bool
  deriving DecidableEq, Repr

/-- An agent type: identity, visual attributes, property definitions, and an
ordered behavior list. -/
structure AgentTypeS where
  id : String
  name : String
  color : String
  shape : String
  size : ℚ
  properties : List PropDef
  behaviors : List BehaviorS
  deriving DecidableEq, Repr

/-- A population request. The `distribution` field of the source type is not
read by the compiler's setup (it always scatters uniformly at random), so it
is omitted. -/
structure PopulationS where
  agentTypeId : String
  count : ℕ
  deriving DecidableEq, Repr

/-- Environment bounds and wraparound flag. -/
structure EnvConfigS where
  width : ℚ
  height : ℚ
  wraparound : Bool
  deriving DecidableEq, Repr

/-- The part of a `StudioModel` the compiler reads. -/
structure StudioModelS where
  environment : EnvConfigS
  agentTypes : List AgentTypeS
  populations : List PopulationS
  deriving DecidableEq, Repr

/-- Modelled from the spec: the transcendental float functions `Math.cos`,
`Math.sin`, `Math.atan2` and the constant `Math.PI`, which have no exact
rational counterpart, abstracted as an arbitrary structure the compiled code
is parametric over. -/
structure JsMath where
  cos : ℚ → ℚ
  sin : ℚ → ℚ
  atan2 : ℚ → ℚ → ℚ
  pi : ℚ

/-- `Math.cos` applied to a JS number (NaN propagates). -/
def jcos (M : JsMath) : JNum → JNum
  | some a => some (M.cos a)
  | none => none

/-- `Math.sin` applied to a JS number (NaN propagates). -/
def jsin (M : JsMath) : JNum → JNum
  | some a => some (M.sin a)
  | none => none

/-- `Math.atan2` applied to JS numbers (NaN propagates). -/
def jatan2 (M : JsMath) : JNum → JNum → JNum
  | some b, some a => some (M.atan2 b a)
  | _, _ => none

/-! ## Runtime agents and the per-tick step state -/

/-- A runtime agent (a flocc `Agent`'s property bag, with the keys the
compiler always writes lifted to typed fields).  An agent whose bag has no
`vx`/`vy` key is represented with `vx = vy = some 0`: every read in the
compiler coalesces the missing value to 0 (`?? 0`).  Custom property names
are assumed distinct from the built-in keys `typeId`/`x`/`y`/`vx`/`vy`. -/
structure SimAgent where
  typeId : String
  x : JNum
  y : JNum
  vx : JNum
  vy : JNum
  props : List (String × JsVal)
  deriving DecidableEq, Repr

/-- `(agent.get(prop) as number) ?? 0`: read a custom property as a number,
with a missing key coalescing to 0. -/
def SimAgent.getNumOr0 (a : SimAgent) (k : String) : JNum :=
  match lookupJs a.props k with
  | .undefVal => some 0
  | v => v.toNum

/-- JS string coercion of a value used as an object key. -/
def jsKey : JsVal → String
  | .str s => s
  | .num q => toString q
  | .bool b => toString b
  | .nan => "NaN"
  | .undefVal => "undefined"

/-- The state a compiled behavior step acts on: the agent being ticked
(`self`), whether it is still attached to the Environment
(`agent.environment` non-null), the other live agents (`peers`), the
Environment's Parameter Table, and the PRNG oracle stream. -/
structure TickState where
  self : SimAgent
  attached : Bool
  peers : List SimAgent
  table : List (String × JsVal)
  rng : List ℚ
  deriving DecidableEq, Repr

/-- Modelled from the spec: the seeded flocc PRNG is external; `draw` pops
the next value `utils.random` produced from the oracle stream (0 once the
listed stream is exhausted). -/
def draw : List ℚ → ℚ × List ℚ
  | [] => (0, [])
  | r :: rest => (r, rest)

/-! ## Parameter resolution (`compiler.ts` lines 610–621) -/

/-- `value.startsWith('$')`, implemented structurally on the character
list. -/
def startsDollar (s : String) : Bool :=
  match s.data with
  | [] => false
  | c :: _ => c == '$'

/-- `value.slice(1)`: the string without its `$` marker, implemented
structurally on the character list. -/
def dropMarker (s : String) : String :=
  String.mk (s.data.drop 1)

/-- `resolveParam(value, agent, fallback)`: a string starting with `$` is a
Parameter Reference, read from the Environment's table at call time
(`agent.environment?.get(name)`, which is `undefined` when the agent is
detached or the parameter is missing, in which case the fallback applies);
any other value is returned itself, with `?? fallback` replacing
`undefined`. -/
def resolveParam (v : JsVal) (attached : Bool) (table : List (String × JsVal))
    (fallback : JsVal) : JsVal :=
  match v with
  | .str s =>
    if startsDollar s then
      let envValue := if attached then lookupJs table (dropMarker s) else .undefVal
      match envValue with
      | .undefVal => fallback
      | ev => ev
    else JsVal.orElse (.str s) fallback
  | v => JsVal.orElse v fallback

/-! ## Spatial helpers (`compiler.ts` lines 627–677 and the flocc KDTree) -/

/-- Torus-aware direction vector (`getDirection`, lines 657–677): under
wraparound, an axis delta longer than half the extent is replaced by the
wrap-around delta. -/
def getDirection (x1 y1 x2 y2 : JNum) (width height : ℚ) (wraparound : Bool) :
    JNum × JNum :=
  let dx := JNum.sub x2 x1
  let dy := JNum.sub y2 y1
  let dx := if wraparound && JNum.lt (some (width / 2)) (JNum.abs dx) then
      (if JNum.lt (some 0) dx then JNum.sub dx (some width)
       else JNum.add dx (some width))
    else dx
  let dy := if wraparound && JNum.lt (some (height / 2)) (JNum.abs dy) then
      (if JNum.lt (some 0) dy then JNum.sub dy (some height)
       else JNum.add dy (some height))
    else dy
  (dx, dy)

/-- Torus-aware distance (`getDistance`, lines 644–652). -/
def getDistance (x1 y1 x2 y2 : JNum) (w h : ℚ) (wraparound : Bool) : JNum :=
  let (dx, dy) := getDirection x1 y1 x2 y2 w h wraparound
  JNum.sqrt (JNum.add (JNum.mul dx dx) (JNum.mul dy dy))

/-- Squared Euclidean distance from a point to an agent (the flocc KDTree
queries use plain Euclidean distance, not the torus metric). -/
def sqDistTo (x y : JNum) (a : SimAgent) : JNum :=
  let dx := JNum.sub a.x x
  let dy := JNum.sub a.y y
  JNum.add (JNum.mul dx dx) (JNum.mul dy dy)

/-- Modelled from the spec: the flocc KDTree's `nearestNeighbor(agent,
filter)` — the index (into the peer list) of the filtered peer nearest to the
querying agent by Euclidean distance, excluding the agent itself (it is not a
peer), first index winning ties; `none` when no candidate qualifies. -/
def nearestIdx (x y : JNum) (filt : SimAgent → Bool) (peers : List SimAgent) :
    Option ℕ :=
  let pick := fun (best : Option (ℕ × ℚ)) (p : ℕ × SimAgent) =>
    if filt p.2 then
      match sqDistTo x y p.2, best with
      | some d, none => some (p.1, d)
      | some d, some (i, bd) => if d < bd then some (p.1, d) else some (i, bd)
      | none, b => b
    else best
  (peers.enum.foldl pick none).map Prod.fst

/-- Modelled from the spec: the flocc KDTree's `agentsWithinDistance(agent,
d, filter)` — the indices of the filtered peers within Euclidean distance `d`
of the querying agent, excluding the agent itself. -/
def withinIdx (x y : JNum) (radius : JNum) (filt : SimAgent → Bool)
    (peers : List SimAgent) : List ℕ :=
  (peers.enum.filter (fun p =>
    filt p.2 && JNum.le (JNum.sqrt (sqDistTo x y p.2)) radius)).map Prod.fst

/-- `typeId === target` with the target taken from the parameter map (strict
equality against the stored string). -/
def typeMatches (a : SimAgent) (target : JsVal) : Bool :=
  JsVal.sEq (.str a.typeId) target

/-- `findNearest(agent, typeId)` (lines 630–639): nearest peer of the given
type. -/
def findNearest (self : SimAgent) (peers : List SimAgent) (target : JsVal) :
    Option ℕ :=
  nearestIdx self.x self.y (fun a => typeMatches a target) peers

/-- Modelled from the spec: flocc `utils.mean` of a list of numbers. -/
def jmean (l : List JNum) : JNum :=
  JNum.div (l.foldl JNum.add (some 0)) (some l.length)

/-! ## Action execution (`compiler.ts` lines 558–595) -/

/-- `executeAction(agent, target, action, params, env)`.  Removal of the
acting agent is modelled from the spec as detaching it (its `environment`
reference becomes null); removal of the target erases it from the live peer
list. -/
def executeAction (st : TickState) (targetIdx : Option ℕ) (action : JsVal)
    (params : List (String × JsVal)) : TickState :=
  match action with
  | .str "remove-self" => { st with attached := false }
  | .str "remove-target" =>
    match targetIdx with
    | some i => { st with peers := st.peers.eraseIdx i }
    | none => st
  | .str "set-property" =>
    let propName := JsVal.orElse (lookupJs params "property")
      (lookupJs params "setProperty")
    let value := JsVal.orElse (lookupJs params "value")
      (JsVal.orElse (lookupJs params "setValue") (.num 0))
    if propName.truthy then
      { st with self := { st.self with
          props := setJs st.self.props (jsKey propName) value } }
    else st
  | .str "increment-property" =>
    let propName := lookupJs params "incrementProperty"
    let amount := JsVal.orElse (lookupJs params "incrementAmount") (.num 1)
    if propName.truthy then
      let current := st.self.getNumOr0 (jsKey propName)
      { st with self := { st.self with
          props := setJs st.self.props (jsKey propName)
            (JNum.add current amount.toNum).toVal } }
    else st
  | _ => st

/-! ## Behavior compilation (`compiler.ts` lines 147–549)

`compileBehavior` turns one behavior descriptor into an executable step (or
`null`, which the pipeline silently drops).  The `reproduce` case calls
`utils.random` once *at compile time* (line 503), so compilation threads the
compile-time PRNG stream `crng` and returns its remainder. -/

def compileBehavior (M : JsMath) (model : StudioModelS) (behavior : BehaviorS)
    (crng : List ℚ) : Option (TickState → TickState) × List ℚ :=
  let params := behavior.params
  let envWidth := model.environment.width
  let envHeight := model.environment.height
  let wraparound := model.environment.wraparound
  match behavior.type with
  | "random-walk" =>
    let speedParam := lookupJs params "speed"
    (some (fun st =>
      let speed := (resolveParam speedParam st.attached st.table (.num 2)).toNum
      let (angle, rng') := draw st.rng
      let x := st.self.x
      let y := st.self.y
      let nx := JNum.add x (JNum.mul (some (M.cos angle)) speed)
      let ny := JNum.add y (JNum.mul (some (M.sin angle)) speed)
      let nx := if wraparound then nx.wrap envWidth else nx
      let ny := if wraparound then ny.wrap envHeight else ny
      { st with self := { st.self with x := nx, y := ny }, rng := rng' }), crng)
  | "move-forward" =>
    let speedParam := lookupJs params "speed"
    (some (fun st =>
      let speed := (resolveParam speedParam st.attached st.table (.num 2)).toNum
      let vx := st.self.vx
      let vy := st.self.vy
      let mag := JNum.sqrt (JNum.add (JNum.mul vx vx) (JNum.mul vy vy))
      let upd :=
        if JNum.lt (some 0) mag then
          let vx' := JNum.mul (JNum.div vx mag) speed
          let vy' := JNum.mul (JNum.div vy mag) speed
          (vx', vy', { st.self with vx := vx', vy := vy' })
        else (vx, vy, st.self)
      let nx := JNum.add upd.2.2.x upd.1
      let ny := JNum.add upd.2.2.y upd.2.1
      let nx := if wraparound then nx.wrap envWidth else nx
      let ny := if wraparound then ny.wrap envHeight else ny
      { st with self := { upd.2.2 with x := nx, y := ny } }), crng)
  | "move-toward" =>
    -- NOTE: `speed` is captured at compile time (`params.speed ?? 2`), with
    -- no `resolveParam` call (source lines 210, 229–230).
    let speed := JsVal.orElse (lookupJs params "speed") (.num 2)
    let targetTypeId := lookupJs params "target"
    if !targetTypeId.truthy then (none, crng) else
    (some (fun st =>
      if !st.attached then st else
      let x := st.self.x
      let y := st.self.y
      match findNearest st.self st.peers targetTypeId with
      | none => st
      | some ti =>
        match st.peers[ti]? with
        | none => st
        | some target =>
          let (dx, dy) :=
            getDirection x y target.x target.y envWidth envHeight wraparound
          let dist := JNum.sqrt (JNum.add (JNum.mul dx dx) (JNum.mul dy dy))
          if JNum.lt (some 0) dist then
            { st with self := { st.self with
                x := JNum.add x (JNum.mul (JNum.div dx dist) speed.toNum),
                y := JNum.add y (JNum.mul (JNum.div dy dist) speed.toNum) } }
          else st), crng)
  | "move-away" =>
    -- Same compile-time capture of `speed` as move-toward (lines 237, 256–257).
    let speed := JsVal.orElse (lookupJs params "speed") (.num 2)
    let targetTypeId := lookupJs params "target"
    if !targetTypeId.truthy then (none, crng) else
    (some (fun st =>
      if !st.attached then st else
      let x := st.self.x
      let y := st.self.y
      match findNearest st.self st.peers targetTypeId with
      | none => st
      | some ti =>
        match st.peers[ti]? with
        | none => st
        | some target =>
          let (dx, dy) :=
            getDirection x y target.x target.y envWidth envHeight wraparound
          let dist := JNum.sqrt (JNum.add (JNum.mul dx dx) (JNum.mul dy dy))
          if JNum.lt (some 0) dist then
            { st with self := { st.self with
                x := JNum.sub x (JNum.mul (JNum.div dx dist) speed.toNum),
                y := JNum.sub y (JNum.mul (JNum.div dy dist) speed.toNum) } }
          else st), crng)
  | "separate" =>
    let radiusParam := lookupJs params "radius"
    let strengthParam := lookupJs params "strength"
    (some (fun st =>
      if !st.attached then st else
      let radius := (resolveParam radiusParam st.attached st.table (.num 25)).toNum
      let strength := (resolveParam strengthParam st.attached st.table (.num 1)).toNum
      let x := st.self.x
      let y := st.self.y
      let typeId := st.self.typeId
      let others := withinIdx x y radius (fun a => a.typeId == typeId) st.peers
      if others.isEmpty then st else
      let steer := others.foldl (fun (s : JNum × JNum) i =>
        match st.peers[i]? with
        | none => s
        | some other =>
          let (dx, dy) :=
            getDirection x y other.x other.y envWidth envHeight wraparound
          let dist := JNum.sqrt (JNum.add (JNum.mul dx dx) (JNum.mul dy dy))
          if JNum.lt (some 0) dist then
            (JNum.sub s.1 (JNum.div (JNum.div dx dist) dist),
             JNum.sub s.2 (JNum.div (JNum.div dy dist) dist))
          else s) (some 0, some 0)
      { st with self := { st.self with
          vx := JNum.add st.self.vx (JNum.mul steer.1 strength),
          vy := JNum.add st.self.vy (JNum.mul steer.2 strength) } }), crng)
  | "align" =>
    let radiusParam := lookupJs params "radius"
    let strengthParam := lookupJs params "strength"
    (some (fun st =>
      if !st.attached then st else
      let radius := (resolveParam radiusParam st.attached st.table (.num 50)).toNum
      let strength := (resolveParam strengthParam st.attached st.table (.num 1)).toNum
      let typeId := st.self.typeId
      let neighbors := withinIdx st.self.x st.self.y radius
        (fun a => a.typeId == typeId) st.peers
      if neighbors.length > 0 then
        let picked := neighbors.filterMap (fun i => st.peers[i]?)
        let avgVx := jmean (picked.map (·.vx))
        let avgVy := jmean (picked.map (·.vy))
        let vx := st.self.vx
        let vy := st.self.vy
        { st with self := { st.self with
            vx := JNum.add vx (JNum.mul (JNum.mul (JNum.sub avgVx vx) strength)
              (some (1 / 10))),
            vy := JNum.add vy (JNum.mul (JNum.mul (JNum.sub avgVy vy) strength)
              (some (1 / 10))) } }
      else st), crng)
  | "cohere" =>
    let radiusParam := lookupJs params "radius"
    let strengthParam := lookupJs params "strength"
    (some (fun st =>
      if !st.attached then st else
      let radius := (resolveParam radiusParam st.attached st.table (.num 75)).toNum
      let strength := (resolveParam strengthParam st.attached st.table (.num 1)).toNum
      let x := st.self.x
      let y := st.self.y
      let typeId := st.self.typeId
      let others := withinIdx x y radius (fun a => a.typeId == typeId) st.peers
      if others.isEmpty then st else
      let center := others.foldl (fun (c : JNum × JNum) i =>
        match st.peers[i]? with
        | none => c
        | some other =>
          let dist := getDistance x y other.x other.y envWidth envHeight wraparound
          if JNum.lt dist radius then
            let (dx, dy) :=
              getDirection x y other.x other.y envWidth envHeight wraparound
            (JNum.add c.1 dx, JNum.add c.2 dy)
          else c) (some 0, some 0)
      let centerX := JNum.div center.1 (some others.length)
      let centerY := JNum.div center.2 (some others.length)
      { st with self := { st.self with
          vx := JNum.add st.self.vx (JNum.mul (JNum.mul centerX strength)
            (some (1 / 100))),
          vy := JNum.add st.self.vy (JNum.mul (JNum.mul centerY strength)
            (some (1 / 100))) } }), crng)
  | "wiggle" =>
    -- `(params.angle ?? 30) * Math.PI / 180`, computed at compile time.
    -- `maxAngle` only serves as the bounds of the `utils.random` call; the
    -- oracle stream holds the value that call produced.
    let _maxAngle := JNum.div (JNum.mul (JsVal.orElse (lookupJs params "angle")
      (.num 30)).toNum (some M.pi)) (some 180)
    (some (fun st =>
      let vx := st.self.vx
      let vy := st.self.vy
      let mag := JNum.sqrt (JNum.add (JNum.mul vx vx) (JNum.mul vy vy))
      if JNum.lt (some 0) mag then
        let angle := jatan2 M vy vx
        let (w, rng') := draw st.rng
        let newAngle := JNum.add angle (some w)
        { st with
          self := { st.self with
            vx := JNum.mul (jcos M newAngle) mag,
            vy := JNum.mul (jsin M newAngle) mag },
          rng := rng' }
      else st), crng)
  | "bounce" =>
    (some (fun st =>
      let x := st.self.x
      let y := st.self.y
      let vx := st.self.vx
      let vy := st.self.vy
      let s1 := if JNum.lt x (some 0) || JNum.le (some envWidth) x then
          { st.self with
            vx := JNum.sub (some 0) vx,
            x := JNum.max2 (some 0) (JNum.min2 (some (envWidth - 1)) x) }
        else st.self
      let s2 := if JNum.lt y (some 0) || JNum.le (some envHeight) y then
          { s1 with
            vy := JNum.sub (some 0) vy,
            y := JNum.max2 (some 0) (JNum.min2 (some (envHeight - 1)) y) }
        else s1
      { st with self := s2 }), crng)
  | "on-collision" =>
    let targetTypeId := lookupJs params "target"
    let radius := JsVal.orElse (lookupJs params "radius") (.num 10)
    let action := JsVal.orElse (lookupJs params "action") (.str "remove-target")
    if !targetTypeId.truthy then (none, crng) else
    (some (fun st =>
      if !st.attached then st else
      let neighbors := withinIdx st.self.x st.self.y radius.toNum
        (fun a => typeMatches a targetTypeId) st.peers
      match neighbors with
      | [] => st
      | i :: _ => executeAction st (some i) action params), crng)
  | "on-property" =>
    let propName := lookupJs params "property"
    let condition := JsVal.orElse (lookupJs params "condition") (.str "lte")
    let threshold := JsVal.orElse (lookupJs params "threshold") (.num 0)
    let action := JsVal.orElse (lookupJs params "action") (.str "remove-self")
    if !propName.truthy then (none, crng) else
    (some (fun st =>
      if !st.attached then st else
      match lookupJs st.self.props (jsKey propName) with
      | .undefVal => st
      | v =>
        let conditionMet :=
          match condition with
          | .str "eq" => JsVal.sEq v threshold
          | .str "neq" => !(JsVal.sEq v threshold)
          | .str "lt" => JNum.lt v.toNum threshold.toNum
          | .str "lte" => JNum.le v.toNum threshold.toNum
          | .str "gt" => JNum.lt threshold.toNum v.toNum
          | .str "gte" => JNum.le threshold.toNum v.toNum
          | _ => false
        if conditionMet then executeAction st none action params else st), crng)
  | "increment-property" =>
    let propName := lookupJs params "property"
    let amount := JsVal.orElse (lookupJs params "amount") (.num (-1))
    if !propName.truthy then (none, crng) else
    (some (fun st =>
      let current := st.self.getNumOr0 (jsKey propName)
      { st with self := { st.self with
          props := setJs st.self.props (jsKey propName)
            (JNum.add current amount.toNum).toVal } }), crng)
  | "die" =>
    let probability := JsVal.orElse (lookupJs params "probability")
      (.num (1 / 100))
    (some (fun st =>
      let (r, rng') := draw st.rng
      let st := { st with rng := rng' }
      if JNum.lt (some r) probability.toNum then
        -- `agent.environment?.removeAgent(agent)`: detaches the agent.
        if st.attached then { st with attached := false } else st
      else st), crng)
  | "reproduce" =>
    let probability := JsVal.orElse (lookupJs params "probability")
      (.num (1 / 100))
    -- `const dist = utils.random(0, params.distance ?? 1, true)` is drawn
    -- once at compile time (line 503).
    let distDraw := draw crng
    let dist := distDraw.1
    (some (fun st =>
      if !st.attached then st else
      let (r, rng') := draw st.rng
      let st := { st with rng := rng' }
      if JNum.lt (some r) probability.toNum then
        let (angle, rng'') := draw st.rng
        let st := { st with rng := rng'' }
        let childProps :=
          match model.agentTypes.find? (fun t => t.id = st.self.typeId) with
          | some ty => ty.properties.foldl
              (fun ps p => setJs ps p.name (lookupJs st.self.props p.name)) []
          | none => []
        let child : SimAgent := {
          typeId := st.self.typeId
          x := JNum.add st.self.x (some (dist * M.cos angle))
          y := JNum.add st.self.y (some (dist * M.sin angle))
          vx := st.self.vx
          vy := st.self.vy
          props := childProps }
        { st with peers := st.peers ++ [child] }
      else st), distDraw.2)
  | _ => (none, crng)

/-- `compileAgentTickFunction` (lines 124–142): disabled behaviors are
filtered out, each remaining behavior is compiled, `null` results are
dropped, and the combined tick function applies every surviving step in
declaration order — unconditionally, with no liveness check between steps. -/
def compileAgentTickFunction (M : JsMath) (model : StudioModelS)
    (agentType : AgentTypeS) (crng : List ℚ) :
    (TickState → TickState) × List ℚ :=
  let enabledBehaviors := agentType.behaviors.filter (·.enabled)
  if enabledBehaviors.isEmpty then (fun st => st, crng)
  else
    let compiled := enabledBehaviors.foldl
      (fun (acc : List (TickState → TickState) × List ℚ) b =>
        let res := compileBehavior M model b acc.2
        match res.1 with
        | some fn => (acc.1 ++ [fn], res.2)
        | none => (acc.1, res.2))
      ([], crng)
    (fun st => compiled.1.foldl (fun s fn => fn s) st, compiled.2)

/-! ## Model compilation and setup (`compiler.ts` lines 34–115) -/

/-- Per-agent-type visual metadata handed to the renderer. -/
structure AgentTypeMetadataS where
  id : String
  name : String
  color : String
  shape : String
  size : ℚ
  deriving DecidableEq, Repr

/-- The result of `compileModel`: the setup procedure (as a function of the
Environment's parameter table and of the stream the freshly seeded PRNG
produces — `setup` begins with `utils.seed(12345)`), visual metadata, the
environment config, and the compiled per-type tick functions (which the
setup attaches to each created agent via `agent.set('tick', tickFn)`; the
attachment itself is kept outside the property bag here because bags hold
data, not functions). -/
structure CompiledModelS where
  setup : List (String × JsVal) → List ℚ → List SimAgent × List ℚ
  agentTypes : List AgentTypeMetadataS
  width : ℚ
  height : ℚ
  wraparound : Bool
  tickFns : List (String × (TickState → TickState))

/-- One iteration of the setup's inner loop: create one agent of the given
type (lines 72–110): draw a uniform random position, seed custom properties
from the type's defaults, and initialize a random velocity when the type has
an enabled move-forward or flocking behavior. -/
def makeAgent (M : JsMath) (agentType : AgentTypeS)
    (table : List (String × JsVal)) (rng : List ℚ) : SimAgent × List ℚ :=
  let (xr, rng) := draw rng
  let (yr, rng) := draw rng
  let props := agentType.properties.foldl
    (fun ps p => setJs ps p.name p.defaultValue) []
  let hasMoveForward := agentType.behaviors.any
    (fun b => b.type == "move-forward" && b.enabled)
  let hasFlocking := agentType.behaviors.any
    (fun b => (b.type == "separate" || b.type == "align" || b.type == "cohere")
      && b.enabled)
  if hasMoveForward || hasFlocking then
    let (angle, rng) := draw rng
    let speedParam :=
      match agentType.behaviors.find? (fun b => b.type == "move-forward") with
      | some b => JsVal.orElse (lookupJs b.params "speed") (.num 2)
      | none => .num 2
    let speed : JNum :=
      match speedParam with
      | .str s =>
        if startsDollar s then
          match lookupJs table (dropMarker s) with
          | .undefVal => some 2
          | v => v.toNum
        else (JsVal.str s).toNum
      | v => v.toNum
    ({ typeId := agentType.id, x := some xr, y := some yr,
       vx := JNum.mul (some (M.cos angle)) speed,
       vy := JNum.mul (some (M.sin angle)) speed,
       props := props }, rng)
  else
    ({ typeId := agentType.id, x := some xr, y := some yr,
       vx := some 0, vy := some 0, props := props }, rng)

/-- The setup's inner loop `for (let i = 0; i < pop.count; i++)`: create `n`
agents of one type, appending each to the environment's agent list. -/
def spawnLoop (M : JsMath) (agentType : AgentTypeS)
    (table : List (String × JsVal)) (n : ℕ)
    (acc : List SimAgent × List ℚ) : List SimAgent × List ℚ :=
  (List.range n).foldl
    (fun (acc : List SimAgent × List ℚ) _ =>
      let p := makeAgent M agentType table acc.2
      (acc.1 ++ [p.1], p.2))
    acc

/-- The setup's outer loop over populations: find each population's agent
type — silently skipping the population when the id dangles
(`if (!agentType) continue`) — and create exactly `count` agents for it. -/
def setupFold (M : JsMath) (model : StudioModelS)
    (table : List (String × JsVal)) (pops : List PopulationS)
    (acc : List SimAgent × List ℚ) : List SimAgent × List ℚ :=
  pops.foldl
    (fun (acc : List SimAgent × List ℚ) pop =>
      match model.agentTypes.find? (fun t => t.id = pop.agentTypeId) with
      | none => acc
      | some agentType => spawnLoop M agentType table pop.count acc)
    acc

/-- The compiled setup procedure (lines 62–112). -/
def runSetup (M : JsMath) (model : StudioModelS)
    (table : List (String × JsVal)) (rng : List ℚ) :
    List SimAgent × List ℚ :=
  setupFold M model table model.populations ([], rng)

/-- `compileModel` (lines 34–115): builds metadata and per-type tick
functions, and closes the setup procedure over them.  It has no error
channel: its result type carries no failure case. -/
def compileModel (M : JsMath) (model : StudioModelS) (crng : List ℚ) :
    CompiledModelS :=
  let agentTypes := model.agentTypes.map (fun t =>
    { id := t.id, name := t.name, color := t.color, shape := t.shape,
      size := t.size : AgentTypeMetadataS })
  let tickFns := model.agentTypes.foldl
    (fun (acc : List (String × (TickState → TickState)) × List ℚ) t =>
      let res := compileAgentTickFunction M model t acc.2
      (acc.1 ++ [(t.id, res.1)], res.2))
    ([], crng)
  { setup := runSetup M model
    agentTypes := agentTypes
    width := model.environment.width
    height := model.environment.height
    wraparound := model.environment.wraparound
    tickFns := tickFns.1 }

/-! ## The simulation engine (`SimulationEngine.ts`)

The engine's playback state machine is modelled as a record of the mutable
fields the claims are about, with each public method a state transition that
also reports the observable events it produced: each executed tick
(`tickE`) and each delivery of the `onTick` callback (`onTickE`).  The
effect of `this.env.tick()` on the agent set (external flocc plus the
compiled pipelines) is abstracted as a parameter `envStep`, and the
`requestAnimationFrame` handle is modelled by the presence of
`animationId` (its numeric value is irrelevant; the current tick count
serves as a stand-in). -/

/-- An observable engine event: a tick executed, or the `onTick` callback
fired. -/
inductive EngEvent where
  | tickE
  | onTickE
  deriving DecidableEq, Repr

/-- The engine's mutable state (fields of `SimulationEngine`).  `env` holds
the Environment's live agent list (null before `initialize`); `setupAgents`
models the stored `setupFn` by the agent list that re-running it produces
(the compiled setup re-seeds the PRNG, so its output is a fixed list for a
given parameter table). -/
structure Engine where
  env : Option (List SimAgent)
  setupAgents : Option (List SimAgent)
  isRunning : Bool
  tickCount : ℕ
  ticksPerFrame : ℕ
  animationId : Option ℕ
  deriving DecidableEq, Repr

namespace Engine

/-- `pause()` (lines 161–167): stop the loop and cancel any pending
animation frame. -/
def pause (e : Engine) : Engine :=
  { e with isRunning := false, animationId := none }

/-- `tick()` (lines 368–382): guard on `env`, run one environment tick,
increment the tick counter. -/
def tick (envStep : List SimAgent → List SimAgent) (e : Engine) :
    Engine × List EngEvent :=
  match e.env with
  | none => (e, [])
  | some ags =>
    ({ e with env := some (envStep ags), tickCount := e.tickCount + 1 },
     [.tickE])

/-- `step()` (lines 172–178): no-op when uninitialized; otherwise pause, run
one tick, re-render, and fire `onTick`. -/
def step (envStep : List SimAgent → List SimAgent) (e : Engine) :
    Engine × List EngEvent :=
  match e.env with
  | none => (e, [])
  | some _ =>
    let r := tick envStep e.pause
    (r.1, r.2 ++ [.onTickE])

/-- The `for (let i = 0; i < this.ticksPerFrame; i++) this.tick()` loop of
`runLoop`. -/
def tickBatch (envStep : List SimAgent → List SimAgent) (n : ℕ)
    (start : Engine × List EngEvent) : Engine × List EngEvent :=
  (List.range n).foldl
    (fun (acc : Engine × List EngEvent) _ =>
      let r := tick envStep acc.1
      (r.1, acc.2 ++ r.2)) start

/-- The body of `runLoop` (lines 353–366): guard on running/initialized,
execute `ticksPerFrame` ticks, fire `onTick` once, and schedule the next
frame. -/
def runLoopBody (envStep : List SimAgent → List SimAgent) (e : Engine) :
    Engine × List EngEvent :=
  if !e.isRunning || e.env = none then (e, [])
  else
    let batch := tickBatch envStep e.ticksPerFrame (e, [])
    ({ batch.1 with animationId := some batch.1.tickCount },
     batch.2 ++ [.onTickE])

/-- `play()` (lines 152–156): no-op when uninitialized or already running;
otherwise enter the running state and start the loop. -/
def play (envStep : List SimAgent → List SimAgent) (e : Engine) :
    Engine × List EngEvent :=
  if e.env = none || e.isRunning then (e, [])
  else runLoopBody envStep { e with isRunning := true }

/-- `reset()` (lines 183–210): guard on `env` and the stored setup; pause,
zero the tick counter, re-run setup, and fire `onTick`. -/
def reset (e : Engine) : Engine × List EngEvent :=
  if e.env = none || e.setupAgents = none then (e, [])
  else
    ({ e.pause with tickCount := 0, env := e.setupAgents }, [.onTickE])

/-- `cleanup()` (lines 305–319): pause and discard the Environment and the
stored setup. -/
def cleanup (e : Engine) : Engine :=
  { e.pause with env := none, setupAgents := none }

/-- `initialize(...)` (lines 60–124), success path: cleanup, reset counters,
build a fresh Environment, run setup (its created agents are the `agents`
argument), and fire `onTick`. -/
def initEngine (agents : List SimAgent) (e : Engine) :
    Engine × List EngEvent :=
  let e1 := { e.cleanup with
    env := some agents
    setupAgents := some agents
    tickCount := 0 }
  (e1, [.onTickE])

/-- `setSpeed(n)` (lines 251–253): ticks per frame, minimum 1. -/
def setSpeed (n : ℕ) (e : Engine) : Engine :=
  { e with ticksPerFrame := max 1 n }

/-- `getAgentCount()` (lines 265–267): `env?.getAgents().length ?? 0`. -/
def getAgentCount (e : Engine) : ℕ :=
  match e.env with
  | none => 0
  | some ags => ags.length

/-- `getTick()` (lines 258–260). -/
def getTick (e : Engine) : ℕ := e.tickCount

end Engine

/-- A trace is tick-separated when no two ticks are adjacent, i.e. at least
one `onTick` delivery lies between any two consecutive ticks. -/
def tickSeparated : List EngEvent → Bool
  | .tickE :: .tickE :: _ => false
  | _ :: rest => tickSeparated rest
  | [] => true

/-! ## Per-tick metrics (`SimulationEngine.ts` lines 441–505) -/

/-- A chart series' metric configuration: a population count, or an
aggregation over a named property, scoped to one agent type. -/
inductive MetricConfigS where
  | count (agentTypeId : String)
  | property (agentTypeId : String) (property : String) (aggregation : String)
  deriving DecidableEq, Repr

/-- `getValues()` (lines 458–464): the named property of every agent of the
given type, keeping exactly the values of JS type `number` (which includes
NaN). -/
def metricValues (agentTypeId property : String) (agents : List SimAgent) :
    List JNum :=
  ((agents.filter (fun a => a.typeId == agentTypeId)).map
    (fun a => lookupJs a.props property)).filterMap
    (fun v => match v with
      | .num q => some (some q)
      | .nan => some (none)
      | _ => none)

/-- `Math.min(...values)` over a nonempty list (the empty case is guarded
before every use). -/
def jminList : List JNum → JNum
  | [] => none
  | h :: t => t.foldl JNum.min2 h

/-- `Math.max(...values)` over a nonempty list. -/
def jmaxList : List JNum → JNum
  | [] => none
  | h :: t => t.foldl JNum.max2 h

/-- Insertion step of the `values.sort((a, b) => a - b)` model. -/
def insertJ (x : JNum) : List JNum → List JNum
  | [] => [x]
  | y :: t => if JNum.le x y then x :: y :: t else y :: insertJ x t

/-- `values.sort((a, b) => a - b)` modelled as an insertion sort; the order
JS produces in the presence of NaN is implementation-defined and no claim
depends on it. -/
def sortJ : List JNum → List JNum
  | [] => []
  | x :: t => insertJ x (sortJ t)

/-- `values[i]` (in range at every use; out of range would be `undefined`,
coercing to NaN). -/
def getJ (l : List JNum) (i : ℕ) : JNum :=
  match l[i]? with
  | some v => v
  | none => none

/-- `createMetricFunction` (lines 441–505), evaluated at the current agent
set.  `none` models the `null` return for an unknown aggregation. -/
def createMetricValue (metric : MetricConfigS) (agents : List SimAgent) :
    Option JNum :=
  match metric with
  | .count tid =>
    some (some ((agents.filter (fun a => a.typeId == tid)).length : ℚ))
  | .property tid prop agg =>
    let values := metricValues tid prop agents
    match agg with
    | "mean" =>
      some (if values.isEmpty then some 0
        else JNum.div (values.foldl JNum.add (some 0)) (some values.length))
    | "min" => some (if values.isEmpty then some 0 else jminList values)
    | "max" => some (if values.isEmpty then some 0 else jmaxList values)
    | "sum" => some (values.foldl JNum.add (some 0))
    | "median" =>
      some (
        let sorted := sortJ values
        if sorted.isEmpty then some 0
        else
          let mid := sorted.length / 2
          if sorted.length % 2 == 0 then
            JNum.div (JNum.add (getJ sorted (mid - 1)) (getJ sorted mid))
              (some 2)
          else getJ sorted mid)
    | _ => none

/-! ## Concrete fixtures used by the theorems below -/

/-- A concrete instantiation of the abstract float functions, used where a
closed theorem needs *some* `JsMath` (no theorem depends on its values). -/
def mathConst : JsMath :=
  { cos := fun _ => 1, sin := fun _ => 0, atan2 := fun _ _ => 0, pi := 3 }

/-- Run one compiled behavior step on a state (identity when the behavior
compiles to `null`, exactly as the pipeline then omits it). -/
def runBehaviorStep (M : JsMath) (model : StudioModelS) (b : BehaviorS)
    (st : TickState) : TickState :=
  match (compileBehavior M model b []).1 with
  | some fn => fn st
  | none => st

/-- The behavior kinds the compiler's `switch` handles (every other kind
falls to `default: return null`). -/
def knownBehaviorKinds : List String :=
  ["random-walk", "move-forward", "move-toward", "move-away", "separate",
   "align", "cohere", "wiggle", "bounce", "on-collision", "on-property",
   "increment-property", "die", "reproduce"]

/-- A non-wraparound 100×100 environment with no agent types (fixture for
compiling individual behaviors). -/
def modelPlain : StudioModelS :=
  { environment := { width := 100, height := 100, wraparound := false },
    agentTypes := [], populations := [] }

/-- `move-toward` whose speed is the Parameter Reference `"$fast"`. -/
def mtBehavior : BehaviorS :=
  { type := "move-toward",
    params := [("speed", .str "$fast"), ("target", .str "prey")],
    enabled := true }

/-- `move-away` whose speed is the Parameter Reference `"$fast"`. -/
def maBehavior : BehaviorS :=
  { type := "move-away",
    params := [("speed", .str "$fast"), ("target", .str "prey")],
    enabled := true }

/-- `move-forward` whose speed is the Parameter Reference `"$fast"`. -/
def mfRefBehavior : BehaviorS :=
  { type := "move-forward", params := [("speed", .str "$fast")],
    enabled := true }

/-- A prey agent sitting at distance 5 from the origin. -/
def preyAgent : SimAgent :=
  { typeId := "prey", x := some 3, y := some 4, vx := some 0, vy := some 0,
    props := [] }

/-- A hunter at the origin. -/
def hunterAgent : SimAgent :=
  { typeId := "wolf", x := some 0, y := some 0, vx := some 0, vy := some 0,
    props := [] }

/-- C1 base state: hunter at the origin, one prey peer, empty table. -/
def stC1base : TickState :=
  { self := hunterAgent, attached := true, peers := [preyAgent],
    table := [], rng := [] }

/-- C1 state family: hunter at the origin, one prey peer, and the parameter
`fast` bound to `v` in the Environment's table. -/
def stC1 (v : ℚ) : TickState :=
  { stC1base with table := [("fast", .num v)] }

/-- The step the compiler produces for
`move-toward { speed: sp, target: tv }` (with a truthy target), written out
as a named function; `compileBehavior_mt_eq` below proves by `rfl` that this
is exactly the compiled closure. -/
def mtStepFn (model : StudioModelS) (sp tv : JsVal)
    (st : TickState) : TickState :=
  if !st.attached then st else
  match findNearest st.self st.peers tv with
  | none => st
  | some ti =>
    match st.peers[ti]? with
    | none => st
    | some target =>
      let (dx, dy) := getDirection st.self.x st.self.y target.x target.y
        model.environment.width model.environment.height
        model.environment.wraparound
      let dist := JNum.sqrt (JNum.add (JNum.mul dx dx) (JNum.mul dy dy))
      if JNum.lt (some 0) dist then
        { st with self := { st.self with
            x := JNum.add st.self.x (JNum.mul (JNum.div dx dist)
              (JsVal.orElse sp (.num 2)).toNum),
            y := JNum.add st.self.y (JNum.mul (JNum.div dy dist)
              (JsVal.orElse sp (.num 2)).toNum) } }
      else st

/-- The step the compiler produces for `move-away` (same query, negated
displacement); `compileBehavior_ma_eq` below proves by `rfl` that this is
exactly the compiled closure. -/
def maStepFn (model : StudioModelS) (sp tv : JsVal)
    (st : TickState) : TickState :=
  if !st.attached then st else
  match findNearest st.self st.peers tv with
  | none => st
  | some ti =>
    match st.peers[ti]? with
    | none => st
    | some target =>
      let (dx, dy) := getDirection st.self.x st.self.y target.x target.y
        model.environment.width model.environment.height
        model.environment.wraparound
      let dist := JNum.sqrt (JNum.add (JNum.mul dx dx) (JNum.mul dy dy))
      if JNum.lt (some 0) dist then
        { st with self := { st.self with
            x := JNum.sub st.self.x (JNum.mul (JNum.div dx dist)
              (JsVal.orElse sp (.num 2)).toNum),
            y := JNum.sub st.self.y (JNum.mul (JNum.div dy dist)
              (JsVal.orElse sp (.num 2)).toNum) } }
      else st

/-- C1 move-forward state family: unit velocity along x, `fast ↦ v`. -/
def stMF (v : ℚ) : TickState :=
  { self := { typeId := "wolf", x := some 0, y := some 0, vx := some 1,
              vy := some 0, props := [] },
    attached := true, peers := [], table := [("fast", .num v)], rng := [] }

/-- The step the compiler produces for `move-forward { speed: spv }`,
written out as a named function; `compileBehavior_mf_eq` below proves by
`rfl` that this is exactly the compiled closure. -/
def mfStepFn (model : StudioModelS) (spv : JsVal) (st : TickState) :
    TickState :=
  let speed := (resolveParam spv st.attached st.table (.num 2)).toNum
  let vx := st.self.vx
  let vy := st.self.vy
  let mag := JNum.sqrt (JNum.add (JNum.mul vx vx) (JNum.mul vy vy))
  let upd :=
    if JNum.lt (some 0) mag then
      let vx' := JNum.mul (JNum.div vx mag) speed
      let vy' := JNum.mul (JNum.div vy mag) speed
      (vx', vy', { st.self with vx := vx', vy := vy' })
    else (vx, vy, st.self)
  let nx := JNum.add upd.2.2.x upd.1
  let ny := JNum.add upd.2.2.y upd.2.1
  let nx := if model.environment.wraparound then
      nx.wrap model.environment.width else nx
  let ny := if model.environment.wraparound then
      ny.wrap model.environment.height else ny
  { st with self := { upd.2.2 with x := nx, y := ny } }

/-- The step the compiler produces for `bounce`; `compileBehavior_bounce_eq`
below proves by `rfl` that this is exactly the compiled closure. -/
def bounceStepFn (model : StudioModelS) (st : TickState) : TickState :=
  let x := st.self.x
  let y := st.self.y
  let vx := st.self.vx
  let vy := st.self.vy
  let s1 := if JNum.lt x (some 0) ||
      JNum.le (some model.environment.width) x then
      { st.self with
        vx := JNum.sub (some 0) vx,
        x := JNum.max2 (some 0)
          (JNum.min2 (some (model.environment.width - 1)) x) }
    else st.self
  let s2 := if JNum.lt y (some 0) ||
      JNum.le (some model.environment.height) y then
      { s1 with
        vy := JNum.sub (some 0) vy,
        y := JNum.max2 (some 0)
          (JNum.min2 (some (model.environment.height - 1)) y) }
    else s1
  { st with self := s2 }

/-- The step the compiler produces for `die` once its probability parameter
has been captured; `compileBehavior_die_eq` below proves by `rfl` that this
is exactly the compiled closure. -/
def dieStepFn (prob : JsVal) (st : TickState) : TickState :=
  let p := draw st.rng
  let st1 := { st with rng := p.2 }
  if JNum.lt (some p.1) prob.toNum then
    if st1.attached then { st1 with attached := false } else st1
  else st1

/-- The step the compiler produces for `increment-property` once its
parameters have been captured; `compileBehavior_inc_eq` below proves by
`rfl` that this is exactly the compiled closure. -/
def incStepFn (propName amount : JsVal) (st : TickState) : TickState :=
  let current := st.self.getNumOr0 (jsKey propName)
  { st with self := { st.self with
      props := setJs st.self.props (jsKey propName)
        (JNum.add current amount.toNum).toVal } }

/-- A behavior of a kind the compiler's `switch` does not know. -/
def unknownBehavior : BehaviorS :=
  { type := "frobnicate", params := [], enabled := true }

/-- An agent type whose only (enabled) behavior has an unknown kind. -/
def typeC2 : AgentTypeS :=
  { id := "T", name := "T", color := "#fff", shape := "circle", size := 5,
    properties := [], behaviors := [unknownBehavior] }

/-- C2 model: one agent type with an unknown-kind behavior, one population
of it, and one population whose `agentTypeId` dangles. -/
def modelC2 : StudioModelS :=
  { environment := { width := 100, height := 100, wraparound := false },
    agentTypes := [typeC2],
    populations := [{ agentTypeId := "T", count := 3 },
                    { agentTypeId := "ghost", count := 2 }] }

/-- C2 model whose every population dangles. -/
def modelGhost : StudioModelS :=
  { environment := { width := 100, height := 100, wraparound := false },
    agentTypes := [typeC2],
    populations := [{ agentTypeId := "ghost", count := 5 }] }

/-- An arbitrary concrete tick state (fixture). -/
def stC2 : TickState :=
  { self := { typeId := "T", x := some 1, y := some 2, vx := some 0,
              vy := some 0, props := [] },
    attached := true, peers := [], table := [], rng := [] }

/-- `move-forward` with literal speed 2. -/
def mfBehavior : BehaviorS :=
  { type := "move-forward", params := [("speed", .num 2)], enabled := true }

/-- `bounce` with no parameters. -/
def bounceBehavior : BehaviorS :=
  { type := "bounce", params := [], enabled := true }

/-- C3 agent type: move-forward then bounce, both enabled. -/
def typeC3 : AgentTypeS :=
  { id := "B", name := "B", color := "#fff", shape := "circle", size := 5,
    properties := [], behaviors := [mfBehavior, bounceBehavior] }

/-- C3 model: a 10×10 *wraparound* environment whose only agent type has
both move-forward and bounce. -/
def modelC3 : StudioModelS :=
  { environment := { width := 10, height := 10, wraparound := true },
    agentTypes := [typeC3], populations := [] }

/-- C3 state family: an agent at `(x0, 5)` with velocity `(2, 0)`. -/
def stC3 (x0 : ℚ) : TickState :=
  { self := { typeId := "B", x := some x0, y := some 5, vx := some 2,
              vy := some 0, props := [] },
    attached := true, peers := [], table := [], rng := [] }

/-- The compiled tick pipeline of the C3 agent type. -/
def runPipelineC3 (st : TickState) : TickState :=
  (compileAgentTickFunction mathConst modelC3 typeC3 []).1 st

/-- `die` with probability 1. -/
def dieBehavior : BehaviorS :=
  { type := "die", params := [("probability", .num 1)], enabled := true }

/-- `increment-property(energy, 5)`. -/
def incBehavior : BehaviorS :=
  { type := "increment-property",
    params := [("property", .str "energy"), ("amount", .num 5)],
    enabled := true }

/-- C4 agent type: die(probability 1) followed by increment-property. -/
def typeC4 : AgentTypeS :=
  { id := "D", name := "D", color := "#fff", shape := "circle", size := 5,
    properties := [], behaviors := [dieBehavior, incBehavior] }

/-- C4 model. -/
def modelC4 : StudioModelS :=
  { environment := { width := 100, height := 100, wraparound := false },
    agentTypes := [typeC4], populations := [] }

/-- The compiled tick pipeline of the C4 agent type. -/
def runPipelineC4 (st : TickState) : TickState :=
  (compileAgentTickFunction mathConst modelC4 typeC4 []).1 st

/-- C4 state: a live agent with `energy = 1` and a PRNG stream whose next
value is 0. -/
def stC4 : TickState :=
  { self := { typeId := "D", x := some 0, y := some 0, vx := some 0,
              vy := some 0, props := [("energy", .num 1)] },
    attached := true, peers := [], table := [], rng := [0] }

/-- C5 engine fixture: initialized, running, at speed `ticksPerFrame = 2`. -/
def engC5 : Engine :=
  { env := some [], setupAgents := some [], isRunning := true, tickCount := 0,
    ticksPerFrame := 2, animationId := none }

/-- C5 engine fixture at speed 1. -/
def engSpeed1 : Engine :=
  { env := some [], setupAgents := some [], isRunning := true, tickCount := 0,
    ticksPerFrame := 1, animationId := none }

/-- C8 engine fixture: initialized, running, mid-simulation. -/
def engC8 : Engine :=
  { env := some [hunterAgent], setupAgents := some [hunterAgent],
    isRunning := true, tickCount := 5, ticksPerFrame := 2,
    animationId := some 3 }

/-- C9 engine fixture: uninitialized (compilation failed or never ran). -/
def engC9 : Engine :=
  { env := none, setupAgents := none, isRunning := false, tickCount := 0,
    ticksPerFrame := 1, animationId := none }

/-- C6 agent types: two plain types. -/
def typeSheep : AgentTypeS :=
  { id := "sheep", name := "Sheep", color := "#fff", shape := "circle",
    size := 5, properties := [{ name := "energy", defaultValue := .num 10 }],
    behaviors := [] }

def typeWolf : AgentTypeS :=
  { id := "wolf", name := "Wolf", color := "#000", shape := "triangle",
    size := 7, properties := [], behaviors := [mfBehavior] }

/-- C6 model: two populations, 3 sheep and 4 wolves. -/
def modelC6 : StudioModelS :=
  { environment := { width := 800, height := 800, wraparound := true },
    agentTypes := [typeSheep, typeWolf],
    populations := [{ agentTypeId := "sheep", count := 3 },
                    { agentTypeId := "wolf", count := 4 }] }

/-- C10 fixture: one agent whose type does not match the queried series. -/
def agentsC10 : List SimAgent :=
  [{ typeId := "sheep", x := some 1, y := some 1, vx := some 0, vy := some 0,
     props := [("energy", .num 10)] }]

/-! ## Arithmetic lemmas about the wraparound formula -/

lemma jsMod_of_nonneg {a b : ℚ} (ha : 0 ≤ a) (hb : 0 < b) :
    jsMod a b = b * Int.fract (a / b) := by
  have hq : 0 ≤ a / b := div_nonneg ha hb.le
  unfold jsMod jsTrunc
  rw [if_neg (not_lt.mpr hq)]
  have hcancel : b * (a / b) = a := by field_simp
  rw [Int.fract, mul_sub, hcancel]

lemma jsMod_nonneg_of_nonneg {a b : ℚ} (ha : 0 ≤ a) (hb : 0 < b) :
    0 ≤ jsMod a b := by
  rw [jsMod_of_nonneg ha hb]
  exact mul_nonneg hb.le (Int.fract_nonneg _)

lemma jsMod_lt_of_nonneg {a b : ℚ} (ha : 0 ≤ a) (hb : 0 < b) :
    jsMod a b < b := by
  rw [jsMod_of_nonneg ha hb]
  calc b * Int.fract (a / b) < b * 1 :=
        mul_lt_mul_of_pos_left (Int.fract_lt_one _) hb
    _ = b := mul_one b

lemma jsMod_bounds {a b : ℚ} (hb : 0 < b) :
    -b < jsMod a b ∧ jsMod a b < b := by
  rcases le_or_lt 0 a with ha | ha
  · exact ⟨lt_of_lt_of_le (neg_neg_of_pos hb) (jsMod_nonneg_of_nonneg ha hb),
      jsMod_lt_of_nonneg ha hb⟩
  · have hq : a / b < 0 := div_neg_of_neg_of_pos ha hb
    unfold jsMod jsTrunc
    rw [if_pos hq]
    constructor
    · have h1 : ⌈a / b⌉ < a / b + 1 := Int.ceil_lt_add_one _
      have h2 : b * (⌈a / b⌉ : ℚ) < b * (a / b + 1) :=
        mul_lt_mul_of_pos_left h1 hb
      have h3 : b * (a / b) = a := by field_simp
      nlinarith
    · have h1 : (a / b : ℚ) ≤ ⌈a / b⌉ := Int.le_ceil _
      have h2 : b * (a / b : ℚ) ≤ b * (⌈a / b⌉ : ℚ) :=
        mul_le_mul_of_nonneg_left h1 hb.le
      have h3 : b * (a / b) = a := by field_simp
      nlinarith

lemma jsWrap_mem {a w : ℚ} (hw : 0 < w) :
    0 ≤ jsWrap a w ∧ jsWrap a w < w := by
  obtain ⟨hlo, hhi⟩ := jsMod_bounds (a := a) hw
  have hy : 0 ≤ jsMod a w + w := by linarith
  unfold jsWrap
  exact ⟨jsMod_nonneg_of_nonneg hy hw, jsMod_lt_of_nonneg hy hw⟩

lemma jsMod_eq_sub_of_between {a w : ℚ} (hw : 0 < w) (h1 : w ≤ a)
    (h2 : a < 2 * w) : jsMod a w = a - w := by
  have hq1 : (1 : ℚ) ≤ a / w := (le_div_iff₀ hw).mpr (by linarith)
  have hfloor : ⌊a / w⌋ = 1 := by
    apply Int.floor_eq_iff.mpr
    constructor
    · exact_mod_cast hq1
    · push_cast
      rw [div_lt_iff₀ hw]
      linarith
  unfold jsMod jsTrunc
  rw [if_neg (not_lt.mpr (by positivity)), hfloor]
  push_cast
  ring

lemma jsWrap_overshoot {w ε δ : ℚ} (hw : 0 < w) (hεδ : ε < δ)
    (hsmall : δ - ε < w) : jsWrap (w - ε + δ) w = δ - ε := by
  have h1 : jsMod (w - ε + δ) w = δ - ε := by
    have := jsMod_eq_sub_of_between (a := w - ε + δ) hw (by linarith)
      (by linarith)
    linarith [this]
  unfold jsWrap
  rw [h1]
  have := jsMod_eq_sub_of_between (a := δ - ε + w) hw (by linarith) (by linarith)
  linarith [this]

/-! ## Claim C7 -/

/-- C7: under wraparound, for every environment width > 0, the coordinate
computed by the movement steps' formula `((nx % width) + width) % width`
(embedded as `jsWrap`) lies in `[0, width)`; in particular an agent at
`x = width - ε` that moved right by `δ > ε` (with `δ - ε < width`) ends at
exactly `δ - ε ≈ 0`, never at `x ≥ width` or `x < 0`.  The same formula is
applied to `y`, so the statement covers both axes. -/
theorem wrap_formula_in_range (x w ε δ : ℚ) (hw : 0 < w) (hεδ : ε < δ)
    (hsmall : δ - ε < w) :
    (0 ≤ jsWrap x w ∧ jsWrap x w < w) ∧
    jsWrap (w - ε + δ) w = δ - ε ∧
    (JNum.wrap (some x) w = some (jsWrap x w)) := by
  refine ⟨jsWrap_mem hw, jsWrap_overshoot hw hεδ hsmall, rfl⟩

/-- Witness for C7 at `x = -3`, `w = 10`, `ε = 1`, `δ = 3`. -/
theorem wrap_formula_in_range_witness :
    (0 ≤ jsWrap (-3) 10 ∧ jsWrap (-3) 10 < 10) ∧
    jsWrap (10 - 1 + 3) 10 = 3 - 1 ∧
    (JNum.wrap (some (-3)) 10 = some (jsWrap (-3) 10)) :=
  wrap_formula_in_range (-3) 10 1 3 (by norm_num) (by norm_num) (by norm_num)

/-! ## Claim C9 -/

/-- C9: on an uninitialized engine (`env` is null — never initialized or
compilation failed), `getAgentCount()` returns 0 and `step()`/`play()` are
no-ops: they leave the whole engine state unchanged, fire no callback, and
(being total functions here, exactly as the guarded source methods) never
throw. -/
theorem uninitialized_engine_noop
    (envStep : List SimAgent → List SimAgent) (e : Engine)
    (h : e.env = none) :
    e.getAgentCount = 0 ∧
    Engine.step envStep e = (e, []) ∧
    Engine.play envStep e = (e, []) := by
  refine ⟨?_, ?_, ?_⟩
  · simp [Engine.getAgentCount, h]
  · simp [Engine.step, h]
  · simp [Engine.play, h]

/-- Witness for C9 at a concrete uninitialized engine. -/
theorem uninitialized_engine_noop_witness :
    engC9.getAgentCount = 0 ∧
    Engine.step id engC9 = (engC9, []) ∧
    Engine.play id engC9 = (engC9, []) :=
  uninitialized_engine_noop id engC9 rfl

/-! ## Claim C10 -/

/-- C10: every per-tick metric aggregation is total on the empty case: when
the series' agent type has no numeric values of the named property (in
particular when it has no agents at all), the `mean`, `min`, `max`, `sum`
and `median` metrics all return 0, and when the type has no matching agents
the `count` metric returns 0 — never NaN, never an exception (the embedded
functions are total). -/
theorem metrics_total_on_empty (agents : List SimAgent) (tid prop : String)
    (hempty : metricValues tid prop agents = []) :
    createMetricValue (.property tid prop "mean") agents = some (some 0) ∧
    createMetricValue (.property tid prop "min") agents = some (some 0) ∧
    createMetricValue (.property tid prop "max") agents = some (some 0) ∧
    createMetricValue (.property tid prop "sum") agents = some (some 0) ∧
    createMetricValue (.property tid prop "median") agents = some (some 0) ∧
    (agents.filter (fun a => a.typeId == tid) = [] →
      createMetricValue (.count tid) agents = some (some 0)) := by
  refine ⟨?_, ?_, ?_, ?_, ?_, ?_⟩
  · simp [createMetricValue, hempty]
  · simp [createMetricValue, hempty]
  · simp [createMetricValue, hempty]
  · simp [createMetricValue, hempty, JNum.add]
  · simp [createMetricValue, hempty, sortJ]
  · intro hc
    simp [createMetricValue, hc]

/-- Witness for C10: a series over type `wolf` while only a `sheep` agent
lives. -/
theorem metrics_total_on_empty_witness :
    createMetricValue (.property "wolf" "energy" "mean") agentsC10
        = some (some 0) ∧
    createMetricValue (.property "wolf" "energy" "min") agentsC10
        = some (some 0) ∧
    createMetricValue (.property "wolf" "energy" "max") agentsC10
        = some (some 0) ∧
    createMetricValue (.property "wolf" "energy" "sum") agentsC10
        = some (some 0) ∧
    createMetricValue (.property "wolf" "energy" "median") agentsC10
        = some (some 0) ∧
    (agentsC10.filter (fun a => a.typeId == "wolf") = [] →
      createMetricValue (.count "wolf") agentsC10 = some (some 0)) :=
  metrics_total_on_empty agentsC10 "wolf" "energy" rfl

/-! ## Claim C8 -/

/-- C8: playback state machine of an initialized engine — `step()` forces
the paused state (running flag cleared, no scheduled animation frame) and
advances the tick counter by exactly one; `play()` is a no-op when already
running or uninitialized; `pause()` is idempotent; and after a `pause()` the
loop body (the only other source of ticks) no longer advances anything
until `play()` or `step()` is called. -/
theorem playback_state_machine
    (envStep : List SimAgent → List SimAgent) (e : Engine)
    (h : e.env ≠ none) :
    ((Engine.step envStep e).1.isRunning = false ∧
     (Engine.step envStep e).1.animationId = none ∧
     (Engine.step envStep e).1.tickCount = e.tickCount + 1) ∧
    (∀ e' : Engine, e'.env = none ∨ e'.isRunning = true →
      Engine.play envStep e' = (e', [])) ∧
    (∀ e' : Engine, Engine.pause (Engine.pause e') = Engine.pause e') ∧
    ((Engine.pause e).isRunning = false ∧
     ∀ e' : Engine, e'.isRunning = false →
      Engine.runLoopBody envStep e' = (e', [])) := by
  refine ⟨?_, ?_, ?_, ?_, ?_⟩
  · rcases he : e.env with _ | ags
    · exact absurd he h
    · simp [Engine.step, Engine.tick, Engine.pause, he]
  · intro e' h'
    rcases h' with h' | h'
    · simp [Engine.play, h']
    · simp [Engine.play, h']
  · intro e'
    simp [Engine.pause]
  · simp [Engine.pause]
  · intro e' h'
    simp [Engine.runLoopBody, h']

/-- Witness for C8 at a concrete running engine. -/
theorem playback_state_machine_witness :
    ((Engine.step id engC8).1.isRunning = false ∧
     (Engine.step id engC8).1.animationId = none ∧
     (Engine.step id engC8).1.tickCount = engC8.tickCount + 1) ∧
    (∀ e' : Engine, e'.env = none ∨ e'.isRunning = true →
      Engine.play id e' = (e', [])) ∧
    (∀ e' : Engine, Engine.pause (Engine.pause e') = Engine.pause e') ∧
    ((Engine.pause engC8).isRunning = false ∧
     ∀ e' : Engine, e'.isRunning = false →
      Engine.runLoopBody id e' = (e', [])) :=
  playback_state_machine id engC8 (by simp [engC8])

/-! ## Claim C5 — helper lemmas -/

lemma tickBatch_events (envStep : List SimAgent → List SimAgent) :
    ∀ (n : ℕ) (e : Engine) (evs : List EngEvent), e.env ≠ none →
      (Engine.tickBatch envStep n (e, evs)).2 = evs ++ List.replicate n .tickE ∧
      (Engine.tickBatch envStep n (e, evs)).1.env ≠ none := by
  intro n
  induction n with
  | zero =>
    intro e evs henv
    simp [Engine.tickBatch, henv]
  | succ k ih =>
    intro e evs henv
    have hstep : Engine.tickBatch envStep (k + 1) (e, evs) =
        (let r := Engine.tick envStep (Engine.tickBatch envStep k (e, evs)).1
         ((Engine.tickBatch envStep k (e, evs)).1, (Engine.tickBatch envStep k (e, evs)).2)
          |> fun acc => (r.1, acc.2 ++ r.2)) := by
      unfold Engine.tickBatch
      rw [List.range_succ, List.foldl_append]
      simp
    obtain ⟨hev, henv'⟩ := ih e evs henv
    rcases he : (Engine.tickBatch envStep k (e, evs)).1.env with _ | ags
    · exact absurd he henv'
    · rw [hstep]
      simp only [Engine.tick, he, hev]
      constructor
      · rw [List.append_assoc, ← List.replicate_succ' (n := k)]
      · simp

lemma runLoopBody_events (envStep : List SimAgent → List SimAgent)
    (e : Engine) (hrun : e.isRunning = true) (henv : e.env ≠ none) :
    (Engine.runLoopBody envStep e).2 =
      List.replicate e.ticksPerFrame .tickE ++ [.onTickE] := by
  rcases he : e.env with _ | ags
  · exact absurd he henv
  · unfold Engine.runLoopBody
    rw [if_neg (by simp [hrun, he])]
    simp only []
    rw [(tickBatch_events envStep e.ticksPerFrame e [] henv).1]
    simp

/-! ## Claim C5 -/

/-- C5 counterexample: at speed `ticksPerFrame = 2`, one frame of the play
loop executes two ticks but delivers `onTick` only once, after the batch —
so between the two consecutive ticks there is no `onTick` delivery,
contradicting the claim that `onTick` fires after each of the
`ticksPerFrame` ticks. -/
theorem onTick_per_tick_cex :
    engC5.ticksPerFrame = 2 ∧
    (Engine.runLoopBody id engC5).2 = [.tickE, .tickE, .onTickE] ∧
    tickSeparated (Engine.runLoopBody id engC5).2 = false := by
  refine ⟨rfl, by decide, by decide⟩

/-- C5 (amended): `onTick` fires once per *frame*, after the whole batch of
`ticksPerFrame` ticks — not after each tick — and it also fires after every
`step()` call, after `initialize`, and after `reset`; only at speed
`ticksPerFrame = 1` is every tick followed by an `onTick` delivery. -/
theorem onTick_per_frame (envStep : List SimAgent → List SimAgent)
    (agents : List SimAgent) :
    (∀ e : Engine, e.isRunning = true → e.env ≠ none →
      (Engine.runLoopBody envStep e).2 =
        List.replicate e.ticksPerFrame .tickE ++ [.onTickE]) ∧
    (∀ e : Engine, e.env ≠ none →
      (Engine.step envStep e).2 = [.tickE, .onTickE]) ∧
    (∀ e : Engine, (Engine.initEngine agents e).2 = [.onTickE]) ∧
    (∀ e : Engine, e.env ≠ none → e.setupAgents ≠ none →
      (Engine.reset e).2 = [.onTickE]) ∧
    (∀ e : Engine, e.isRunning = true → e.env ≠ none →
      e.ticksPerFrame = 1 →
      tickSeparated (Engine.runLoopBody envStep e).2 = true) := by
  refine ⟨?_, ?_, ?_, ?_, ?_⟩
  · intro e hrun henv
    exact runLoopBody_events envStep e hrun henv
  · intro e henv
    rcases he : e.env with _ | ags
    · exact absurd he henv
    · simp [Engine.step, Engine.tick, Engine.pause, he]
  · intro e
    simp [Engine.initEngine]
  · intro e henv hsetup
    unfold Engine.reset
    rw [if_neg (by simp [henv, hsetup])]
  · intro e hrun henv hspeed
    rw [runLoopBody_events envStep e hrun henv, hspeed]
    decide

/-- Witness for C5's amended theorem at concrete engines. -/
theorem onTick_per_frame_witness :
    (Engine.runLoopBody id engSpeed1).2 =
      List.replicate engSpeed1.ticksPerFrame .tickE ++ [.onTickE] ∧
    (Engine.step id engC8).2 = [.tickE, .onTickE] ∧
    (Engine.initEngine [] engC9).2 = [.onTickE] ∧
    (Engine.reset engC8).2 = [.onTickE] ∧
    tickSeparated (Engine.runLoopBody id engSpeed1).2 = true := by
  obtain ⟨h1, h2, h3, h4, h5⟩ := onTick_per_frame id []
  exact ⟨h1 engSpeed1 rfl (by simp [engSpeed1]),
    h2 engC8 (by simp [engC8]), h3 engC9,
    h4 engC8 (by simp [engC8]) (by simp [engC8]),
    h5 engSpeed1 rfl (by simp [engSpeed1]) rfl⟩

/-! ## Claim C6 — helper lemmas -/

lemma spawnLoop_length (M : JsMath) (ty : AgentTypeS)
    (table : List (String × JsVal)) :
    ∀ (n : ℕ) (acc : List SimAgent × List ℚ),
      (spawnLoop M ty table n acc).1.length = acc.1.length + n := by
  intro n
  induction n with
  | zero =>
    intro acc
    simp [spawnLoop]
  | succ k ih =>
    intro acc
    have hstep : spawnLoop M ty table (k + 1) acc =
        (let p := makeAgent M ty table (spawnLoop M ty table k acc).2
         ((spawnLoop M ty table k acc).1 ++ [p.1], p.2)) := by
      unfold spawnLoop
      rw [List.range_succ, List.foldl_append]
      simp
    rw [hstep]
    simp [ih, Nat.add_assoc]

lemma setupFold_length (M : JsMath) (model : StudioModelS)
    (table : List (String × JsVal)) :
    ∀ (pops : List PopulationS) (acc : List SimAgent × List ℚ),
      (∀ pop ∈ pops,
        ∃ t ∈ model.agentTypes, t.id = pop.agentTypeId) →
      (setupFold M model table pops acc).1.length =
        acc.1.length + (pops.map (·.count)).sum := by
  intro pops
  induction pops with
  | nil =>
    intro acc _
    simp [setupFold]
  | cons p ps ih =>
    intro acc hv
    have hsome : (model.agentTypes.find?
        (fun t => t.id = p.agentTypeId)).isSome := by
      rw [List.find?_isSome]
      obtain ⟨t, ht, hid⟩ := hv p (List.mem_cons_self _ _)
      exact ⟨t, ht, by simp [hid]⟩
    obtain ⟨ty, hty⟩ := Option.isSome_iff_exists.mp hsome
    have hrest : ∀ pop ∈ ps, ∃ t ∈ model.agentTypes,
        t.id = pop.agentTypeId :=
      fun pop hmem => hv pop (List.mem_cons_of_mem _ hmem)
    unfold setupFold
    rw [List.foldl_cons, hty]
    have := ih (spawnLoop M ty table p.count acc) hrest
    unfold setupFold at this
    rw [this, spawnLoop_length]
    simp [List.map_cons, List.sum_cons, Nat.add_assoc]

/-! ## Claim C6 -/

/-- C6: for every model in which each population's `agentTypeId` names an
existing agent type, immediately after `initialize` the engine's
`getAgentCount()` equals the sum of all `population.count` values — the
compiled setup creates exactly `count` agents per population (and no
behavior runs during setup, so nothing else can change the count). -/
theorem population_invariant (M : JsMath) (model : StudioModelS)
    (table : List (String × JsVal)) (rng crng : List ℚ) (e : Engine)
    (hvalid : ∀ pop ∈ model.populations,
      ∃ t ∈ model.agentTypes, t.id = pop.agentTypeId) :
    (Engine.initEngine ((compileModel M model crng).setup table rng).1
        e).1.getAgentCount
      = (model.populations.map (·.count)).sum := by
  have hsetup : (compileModel M model crng).setup = runSetup M model := rfl
  rw [hsetup]
  have hlen : (runSetup M model table rng).1.length =
      (model.populations.map (·.count)).sum := by
    unfold runSetup
    rw [setupFold_length M model table model.populations ([], rng) hvalid]
    simp
  simp [Engine.initEngine, Engine.cleanup, Engine.pause,
    Engine.getAgentCount, hlen]

/-- Witness for C6: 3 sheep + 4 wolves. -/
theorem population_invariant_witness :
    (Engine.initEngine ((compileModel mathConst modelC6 []).setup [] []).1
        engC9).1.getAgentCount
      = (modelC6.populations.map (·.count)).sum :=
  population_invariant mathConst modelC6 [] [] [] engC9 (by decide)

/-! ## Claim C1 — helper lemmas -/

/-- The compiled `move-toward` step *is* `mtStepFn` (kernel-checked). -/
lemma compileBehavior_mt_eq (M : JsMath) (model : StudioModelS) (sp : JsVal)
    (crng : List ℚ) :
    compileBehavior M model
        ⟨"move-toward", [("speed", sp), ("target", .str "prey")], true⟩ crng
      = (some (mtStepFn model sp (.str "prey")), crng) := rfl

/-- The compiled `move-away` step *is* `maStepFn` (kernel-checked). -/
lemma compileBehavior_ma_eq (M : JsMath) (model : StudioModelS) (sp : JsVal)
    (crng : List ℚ) :
    compileBehavior M model
        ⟨"move-away", [("speed", sp), ("target", .str "prey")], true⟩ crng
      = (some (maStepFn model sp (.str "prey")), crng) := rfl

/-- The `move-toward` step never reads the Environment's parameter table:
its action commutes with any table replacement. -/
lemma mtStepFn_table_irrelevant (model : StudioModelS)
    (sp tv : JsVal) (st : TickState) (t : List (String × JsVal)) :
    mtStepFn model sp tv { st with table := t }
      = { mtStepFn model sp tv st with table := t } := by
  rcases st with ⟨self, att, peers, tb, rng⟩
  unfold mtStepFn
  cases att with
  | false => simp
  | true =>
    simp only [Bool.not_true, Bool.false_eq_true, if_false]
    rcases hf : findNearest self peers tv with _ | ti
    · simp [hf]
    · simp only [hf]
      rcases hg : peers[ti]? with _ | tgt
      · simp [hg]
      · simp only [hg]
        by_cases hd : (JNum.lt (some 0) (JNum.sqrt (JNum.add
            (JNum.mul (getDirection self.x self.y tgt.x tgt.y
              model.environment.width model.environment.height
              model.environment.wraparound).1
             (getDirection self.x self.y tgt.x tgt.y
              model.environment.width model.environment.height
              model.environment.wraparound).1)
            (JNum.mul (getDirection self.x self.y tgt.x tgt.y
              model.environment.width model.environment.height
              model.environment.wraparound).2
             (getDirection self.x self.y tgt.x tgt.y
              model.environment.width model.environment.height
              model.environment.wraparound).2)))) = true
        · simp [hd]
        · simp [hd]

/-- The `move-away` step never reads the Environment's parameter table. -/
lemma maStepFn_table_irrelevant (model : StudioModelS)
    (sp tv : JsVal) (st : TickState) (t : List (String × JsVal)) :
    maStepFn model sp tv { st with table := t }
      = { maStepFn model sp tv st with table := t } := by
  rcases st with ⟨self, att, peers, tb, rng⟩
  unfold maStepFn
  cases att with
  | false => simp
  | true =>
    simp only [Bool.not_true, Bool.false_eq_true, if_false]
    rcases hf : findNearest self peers tv with _ | ti
    · simp [hf]
    · simp only [hf]
      rcases hg : peers[ti]? with _ | tgt
      · simp [hg]
      · simp only [hg]
        by_cases hd : (JNum.lt (some 0) (JNum.sqrt (JNum.add
            (JNum.mul (getDirection self.x self.y tgt.x tgt.y
              model.environment.width model.environment.height
              model.environment.wraparound).1
             (getDirection self.x self.y tgt.x tgt.y
              model.environment.width model.environment.height
              model.environment.wraparound).1)
            (JNum.mul (getDirection self.x self.y tgt.x tgt.y
              model.environment.width model.environment.height
              model.environment.wraparound).2
             (getDirection self.x self.y tgt.x tgt.y
              model.environment.width model.environment.height
              model.environment.wraparound).2)))) = true
        · simp [hd]
        · simp [hd]

/-- The compiled `move-forward` step *is* `mfStepFn` (kernel-checked). -/
lemma compileBehavior_mf_eq (M : JsMath) (model : StudioModelS) (spv : JsVal)
    (crng : List ℚ) :
    compileBehavior M model ⟨"move-forward", [("speed", spv)], true⟩ crng
      = (some (mfStepFn model spv), crng) := rfl

/-- Characterization of the `move-forward` step when the velocity magnitude
is positive: velocity is normalized to the *resolved* speed and applied as a
displacement (wrapped under wraparound). -/
lemma mfStepFn_moves (model : StudioModelS) (spv : JsVal) (st : TickState)
    (m s : ℚ)
    (hmag : JNum.sqrt (JNum.add (JNum.mul st.self.vx st.self.vx)
      (JNum.mul st.self.vy st.self.vy)) = some m)
    (hm : 0 < m)
    (hsp : (resolveParam spv st.attached st.table (.num 2)).toNum = some s) :
    mfStepFn model spv st =
      { st with self := { st.self with
          vx := JNum.mul (JNum.div st.self.vx (some m)) (some s),
          vy := JNum.mul (JNum.div st.self.vy (some m)) (some s),
          x := (if model.environment.wraparound then
              (JNum.add st.self.x (JNum.mul (JNum.div st.self.vx (some m))
                (some s))).wrap model.environment.width
            else JNum.add st.self.x (JNum.mul (JNum.div st.self.vx (some m))
              (some s))),
          y := (if model.environment.wraparound then
              (JNum.add st.self.y (JNum.mul (JNum.div st.self.vy (some m))
                (some s))).wrap model.environment.height
            else JNum.add st.self.y (JNum.mul (JNum.div st.self.vy (some m))
              (some s))) } } := by
  have hcond : JNum.lt (some 0) (some m) = true := decide_eq_true hm
  simp only [mfStepFn]
  rw [hmag, hsp, hcond]
  simp

/-! ## Claim C1 -/

/-- C1 counterexample: the claim fails for move-toward.  Its compiled step
captures `params.speed ?? 2` at compile time with no `resolveParam` call, so
with `speed = "$fast"` the two runs below — identical except that the
Environment's parameter `fast` is 1 in one and 100 in the other — produce
exactly the same agent state: changing the referenced Parameter between
ticks does *not* change the behavior's effect on the next tick. -/
theorem moveToward_ignores_table_cex :
    (runBehaviorStep mathConst modelPlain mtBehavior (stC1 1)).self =
      (runBehaviorStep mathConst modelPlain mtBehavior (stC1 100)).self ∧
    (stC1 1).table ≠ (stC1 100).table := by
  have h : ∀ v : ℚ,
      runBehaviorStep mathConst modelPlain mtBehavior (stC1 v) =
      { mtStepFn modelPlain (.str "$fast") (.str "prey") stC1base with
        table := [("fast", .num v)] } := by
    intro v
    exact mtStepFn_table_irrelevant modelPlain (.str "$fast") (.str "prey")
      stC1base [("fast", .num v)]
  rw [h 1, h 100]
  exact ⟨rfl, by decide⟩

/-- C1 (amended): parameter references are resolved at step-execution time
only for the parameters routed through `resolveParam` — move-forward's speed
(shown here: two runs differing only in the table value of `$fast` displace
the agent differently), and likewise random-walk's speed and the flocking
radii/strengths.  But move-toward and move-away capture `params.speed` at
compile time without resolution: their compiled steps commute with *any*
replacement of the parameter table, so runtime parameter edits cannot affect
them. -/
theorem param_hot_swap_amended (v w : ℚ) (hvw : v ≠ w) :
    ((runBehaviorStep mathConst modelPlain mfRefBehavior (stMF v)).self.x ≠
     (runBehaviorStep mathConst modelPlain mfRefBehavior (stMF w)).self.x) ∧
    (∀ (st : TickState) (t : List (String × JsVal)),
      runBehaviorStep mathConst modelPlain mtBehavior { st with table := t }
        = { runBehaviorStep mathConst modelPlain mtBehavior st with
            table := t }) ∧
    (∀ (st : TickState) (t : List (String × JsVal)),
      runBehaviorStep mathConst modelPlain maBehavior { st with table := t }
        = { runBehaviorStep mathConst modelPlain maBehavior st with
            table := t }) := by
  refine ⟨?_, ?_, ?_⟩
  · have hmag : JNum.sqrt (JNum.add
        (JNum.mul (some (1 : ℚ)) (some 1)) (JNum.mul (some (0 : ℚ)) (some 0)))
        = some 1 := by
      simp only [JNum.mul, JNum.add, JNum.sqrt]
      rw [if_neg (by norm_num)]
      rw [show (1 * 1 + 0 * 0 : ℚ) = 1 * 1 by norm_num, Rat.sqrt_eq]
      norm_num
    have hx : ∀ u : ℚ,
        (runBehaviorStep mathConst modelPlain mfRefBehavior (stMF u)).self.x
          = some u := by
      intro u
      have h1 : runBehaviorStep mathConst modelPlain mfRefBehavior (stMF u)
          = mfStepFn modelPlain (.str "$fast") (stMF u) := rfl
      rw [h1, mfStepFn_moves modelPlain (.str "$fast") (stMF u) 1 u hmag
        (by norm_num) rfl]
      simp [stMF, modelPlain, JNum.add, JNum.mul, JNum.div]
    rw [hx v, hx w]
    intro heq
    exact hvw (Option.some.injEq .. ▸ heq)
  · intro st t
    exact mtStepFn_table_irrelevant modelPlain (.str "$fast") (.str "prey")
      st t
  · intro st t
    exact maStepFn_table_irrelevant modelPlain (.str "$fast") (.str "prey")
      st t

/-- Witness for C1's amended theorem at `fast = 1` versus `fast = 2`. -/
theorem param_hot_swap_amended_witness :
    ((runBehaviorStep mathConst modelPlain mfRefBehavior (stMF 1)).self.x ≠
     (runBehaviorStep mathConst modelPlain mfRefBehavior (stMF 2)).self.x) ∧
    (∀ (st : TickState) (t : List (String × JsVal)),
      runBehaviorStep mathConst modelPlain mtBehavior { st with table := t }
        = { runBehaviorStep mathConst modelPlain mtBehavior st with
            table := t }) ∧
    (∀ (st : TickState) (t : List (String × JsVal)),
      runBehaviorStep mathConst modelPlain maBehavior { st with table := t }
        = { runBehaviorStep mathConst modelPlain maBehavior st with
            table := t }) :=
  param_hot_swap_amended 1 2 (by norm_num)

/-! ## Claim C3 — helper lemmas -/

/-- The compiled `bounce` step *is* `bounceStepFn` (kernel-checked). -/
lemma compileBehavior_bounce_eq (M : JsMath) (model : StudioModelS)
    (crng : List ℚ) :
    compileBehavior M model ⟨"bounce", [], true⟩ crng
      = (some (bounceStepFn model), crng) := rfl

/-- A `bounce` step is a no-op on an agent whose position is already inside
the bounds. -/
lemma bounce_inbounds_noop (model : StudioModelS) (st : TickState)
    (xq yq : ℚ)
    (hx : st.self.x = some xq) (hy : st.self.y = some yq)
    (hx0 : 0 ≤ xq) (hxw : xq < model.environment.width)
    (hy0 : 0 ≤ yq) (hyh : yq < model.environment.height) :
    bounceStepFn model st = st := by
  have hc1 : (JNum.lt st.self.x (some 0) ||
      JNum.le (some model.environment.width) st.self.x) = false := by
    rw [hx]
    simp only [JNum.lt, JNum.le, Bool.or_eq_false_iff,
      decide_eq_false_iff_not, not_lt, not_le]
    exact ⟨hx0, hxw⟩
  have hc2 : (JNum.lt st.self.y (some 0) ||
      JNum.le (some model.environment.height) st.self.y) = false := by
    rw [hy]
    simp only [JNum.lt, JNum.le, Bool.or_eq_false_iff,
      decide_eq_false_iff_not, not_lt, not_le]
    exact ⟨hy0, hyh⟩
  simp only [bounceStepFn]
  rw [hc1, hc2]
  simp

lemma magnitude_2_0 : JNum.sqrt (JNum.add
    (JNum.mul (some (2 : ℚ)) (some 2)) (JNum.mul (some (0 : ℚ)) (some 0)))
    = some 2 := by
  simp only [JNum.mul, JNum.add, JNum.sqrt]
  rw [if_neg (by norm_num), show (2 * 2 + 0 * 0 : ℚ) = 2 * 2 by norm_num,
    Rat.sqrt_eq]
  norm_num

/-- What one tick of the C3 pipeline does to the agent at `(x0, 5)` with
velocity `(2, 0)`: move-forward wraps the new coordinate (the environment is
wraparound), and the subsequent bounce step does nothing because the wrapped
coordinate is already in bounds. -/
lemma runPipelineC3_spec (x0 : ℚ) :
    (runPipelineC3 (stC3 x0)).self.x = some (jsWrap (x0 + 2) 10) ∧
    (runPipelineC3 (stC3 x0)).self.vx = some 2 := by
  have hpipe : runPipelineC3 (stC3 x0) =
      bounceStepFn modelC3 (mfStepFn modelC3 (.num 2) (stC3 x0)) := rfl
  have hmf : mfStepFn modelC3 (.num 2) (stC3 x0) =
      { stC3 x0 with self := { (stC3 x0).self with
          vx := some 2, vy := some 0,
          x := some (jsWrap (x0 + 2) 10), y := some (jsWrap 5 10) } } := by
    rw [mfStepFn_moves modelC3 (.num 2) (stC3 x0) 2 2 magnitude_2_0
      (by norm_num) rfl]
    simp only [stC3, modelC3, JNum.div, JNum.mul, JNum.add, JNum.wrap]
    norm_num
  have hb : bounceStepFn modelC3
      { stC3 x0 with self := { (stC3 x0).self with
          vx := some 2, vy := some 0,
          x := some (jsWrap (x0 + 2) 10), y := some (jsWrap 5 10) } } =
      { stC3 x0 with self := { (stC3 x0).self with
          vx := some 2, vy := some 0,
          x := some (jsWrap (x0 + 2) 10), y := some (jsWrap 5 10) } } := by
    refine bounce_inbounds_noop modelC3 _ (jsWrap (x0 + 2) 10)
      (jsWrap 5 10) rfl rfl ?_ ?_ ?_ ?_
    · exact (jsWrap_mem (by norm_num)).1
    · exact (jsWrap_mem (a := x0 + 2) (w := 10) (by norm_num)).2
    · exact (jsWrap_mem (by norm_num)).1
    · exact (jsWrap_mem (a := (5 : ℚ)) (w := 10) (by norm_num)).2
  rw [hpipe, hmf, hb]
  exact ⟨rfl, rfl⟩

lemma jsWrap_nine_plus_two : jsWrap (9 + 2 : ℚ) 10 = 1 := by
  unfold jsWrap jsMod jsTrunc
  norm_num

/-! ## Claim C3 -/

/-- C3 counterexample: in a wraparound 10×10 environment, an agent type with
an enabled bounce behavior still gets toroidal wrapping from its
move-forward step — starting at `x = 9` with velocity `(2, 0)`, one tick
ends at `x = 1` (wrapped) with `vx = 2` (not reflected), even though bounce
is configured.  This contradicts the claim that bounce suppresses wrapping
(that wrapping occurs only when the agent type has no bounce behavior). -/
theorem bounce_precedence_cex :
    modelC3.environment.wraparound = true ∧
    typeC3.behaviors = [mfBehavior, bounceBehavior] ∧
    (runPipelineC3 (stC3 9)).self.x = some 1 ∧
    (runPipelineC3 (stC3 9)).self.vx = some 2 := by
  obtain ⟨hx, hvx⟩ := runPipelineC3_spec 9
  refine ⟨rfl, rfl, ?_, hvx⟩
  rw [hx, jsWrap_nine_plus_two]

/-- C3 (amended): bounce does *not* take precedence over wraparound.  The
wraparound wrapping inside random-walk/move-forward is applied whenever the
environment's wraparound flag is set, regardless of whether the agent type
also has a bounce behavior; the bounce step itself only reflects a position
that is out of bounds when it runs, so after a wrapped movement step (whose
result always lies in `[0, width)`) it is a no-op.  Bounce has an effect
only when the position is out of bounds — e.g. when wraparound is off, or
after non-wrapping movement like move-toward. -/
theorem wraparound_wins_over_bounce (M : JsMath) :
    (∀ (model : StudioModelS) (st : TickState) (xq yq : ℚ),
      st.self.x = some xq → st.self.y = some yq →
      0 ≤ xq → xq < model.environment.width →
      0 ≤ yq → yq < model.environment.height →
      runBehaviorStep M model bounceBehavior st = st) ∧
    (∀ x0 : ℚ,
      (runPipelineC3 (stC3 x0)).self.x = some (jsWrap (x0 + 2) 10) ∧
      0 ≤ jsWrap (x0 + 2) 10 ∧ jsWrap (x0 + 2) 10 < 10 ∧
      (runPipelineC3 (stC3 x0)).self.vx = some 2) := by
  constructor
  · intro model st xq yq hx hy hx0 hxw hy0 hyh
    have h1 : runBehaviorStep M model bounceBehavior st
        = bounceStepFn model st := rfl
    rw [h1]
    exact bounce_inbounds_noop model st xq yq hx hy hx0 hxw hy0 hyh
  · intro x0
    obtain ⟨hx, hvx⟩ := runPipelineC3_spec x0
    exact ⟨hx, (jsWrap_mem (by norm_num)).1,
      (jsWrap_mem (a := x0 + 2) (w := 10) (by norm_num)).2, hvx⟩

/-- Witness for C3's amended theorem: a bounce step leaves the in-bounds
agent at `(3, 5)` untouched, and the pipeline starting at `x0 = 9` lands on
the wrapped coordinate. -/
theorem wraparound_wins_over_bounce_witness :
    runBehaviorStep mathConst modelC3 bounceBehavior (stC3 3) = stC3 3 ∧
    ((runPipelineC3 (stC3 9)).self.x = some (jsWrap (9 + 2) 10) ∧
     0 ≤ jsWrap (9 + 2 : ℚ) 10 ∧ jsWrap (9 + 2 : ℚ) 10 < 10 ∧
     (runPipelineC3 (stC3 9)).self.vx = some 2) := by
  obtain ⟨h1, h2⟩ := wraparound_wins_over_bounce mathConst
  exact ⟨h1 modelC3 (stC3 3) 3 5 rfl rfl (by norm_num)
    (by norm_num [modelC3]) (by norm_num) (by norm_num [modelC3]), h2 9⟩

/-! ## Claim C4 — helper lemmas -/

/-- The compiled `die` step *is* `dieStepFn` (kernel-checked). -/
lemma compileBehavior_die_eq (M : JsMath) (model : StudioModelS)
    (crng : List ℚ) :
    compileBehavior M model dieBehavior crng
      = (some (dieStepFn (.num 1)), crng) := rfl

/-- The compiled `increment-property` step *is* `incStepFn`
(kernel-checked). -/
lemma compileBehavior_inc_eq (M : JsMath) (model : StudioModelS)
    (crng : List ℚ) :
    compileBehavior M model incBehavior crng
      = (some (incStepFn (.str "energy") (.num 5)), crng) := rfl

/-- Writing a key and reading it back yields the written value. -/
lemma lookupJs_setJs (m : List (String × JsVal)) (k : String) (v : JsVal) :
    lookupJs (setJs m k v) k = v := by
  induction m with
  | nil =>
    unfold setJs lookupJs
    rw [List.find?_cons_of_pos _ (by simp)]
  | cons p rest ih =>
    by_cases h : p.1 = k
    · unfold setJs lookupJs
      rw [if_pos h, List.find?_cons_of_pos _ (by simp)]
    · unfold setJs lookupJs
      rw [if_neg h, List.find?_cons_of_neg _ (by simpa using h)]
      unfold lookupJs at ih
      exact ih

/-- A `die` step that fires leaves the agent detached with the random value
consumed. -/
lemma dieStepFn_fires (st : TickState) (r : ℚ) (rest : List ℚ)
    (hr : st.rng = r :: rest) (hlt : r < 1) :
    dieStepFn (.num 1) st = { st with rng := rest, attached := false } := by
  have hc : JNum.lt (some r) (JsVal.num 1).toNum = true :=
    decide_eq_true hlt
  rcases st with ⟨self, att, peers, table, rng⟩
  subst hr
  simp only [dieStepFn, draw, hc, if_true]
  cases att <;> simp

/-! ## Claim C4 -/

/-- C4 counterexample: with the pipeline `[die(probability 1),
increment-property(energy, +5)]` and a PRNG value of 0, the die step removes
the agent from the Environment, yet the increment-property step of the same
pipeline still executes afterwards in the same tick and mutates the removed
agent (`energy` goes from 1 to 6) — contradicting the claim that no further
compiled steps run for a removed agent. -/
theorem die_removed_agent_still_stepped_cex :
    (runPipelineC4 stC4).attached = false ∧
    lookupJs (runPipelineC4 stC4).self.props "energy" = .num 6 := by
  have h : runPipelineC4 stC4 =
      { self := { typeId := "D", x := some 0, y := some 0, vx := some 0,
                  vy := some 0, props := [("energy", .num (1 + 5))] },
        attached := false, peers := [], table := [], rng := [] } := rfl
  rw [h]
  refine ⟨rfl, ?_⟩
  show JsVal.num (1 + 5) = JsVal.num 6
  norm_num

/-- C4 (amended): the combined tick function applies every compiled step
unconditionally — when die fires, the agent is detached from the
Environment, but the remaining steps of its pipeline still execute in the
same tick; steps without an environment guard (increment-property here)
still mutate the removed agent, while steps that begin with an environment
check (move-toward here) are no-ops for a detached agent. -/
theorem die_does_not_stop_pipeline (st : TickState) (r : ℚ)
    (rest : List ℚ) (q : ℚ)
    (hr : st.rng = r :: rest) (hlt : r < 1)
    (hq : lookupJs st.self.props "energy" = .num q) :
    (runPipelineC4 st).attached = false ∧
    lookupJs (runPipelineC4 st).self.props "energy" = .num (q + 5) ∧
    (∀ st' : TickState, st'.attached = false →
      runBehaviorStep mathConst modelPlain mtBehavior st' = st') := by
  have hpipe : runPipelineC4 st =
      incStepFn (.str "energy") (.num 5) (dieStepFn (.num 1) st) := rfl
  have hdie := dieStepFn_fires st r rest hr hlt
  have hinc : incStepFn (.str "energy") (.num 5)
      { st with rng := rest, attached := false } =
      { st with
        rng := rest
        attached := false
        self := { st.self with
          props := setJs st.self.props "energy" (.num (q + 5)) } } := by
    simp only [incStepFn, SimAgent.getNumOr0, jsKey]
    rw [hq]
    simp [JsVal.toNum, JNum.add, JNum.toVal]
  refine ⟨?_, ?_, ?_⟩
  · rw [hpipe, hdie, hinc]
  · rw [hpipe, hdie, hinc]
    simp only
    exact lookupJs_setJs st.self.props "energy" (.num (q + 5))
  · intro st' h'
    have h1 : runBehaviorStep mathConst modelPlain mtBehavior st'
        = mtStepFn modelPlain (.str "$fast") (.str "prey") st' := rfl
    rw [h1]
    unfold mtStepFn
    rw [h']
    simp

/-- Witness for C4's amended theorem at the concrete fixture. -/
theorem die_does_not_stop_pipeline_witness :
    (runPipelineC4 stC4).attached = false ∧
    lookupJs (runPipelineC4 stC4).self.props "energy" = .num (1 + 5) ∧
    (∀ st' : TickState, st'.attached = false →
      runBehaviorStep mathConst modelPlain mtBehavior st' = st') :=
  die_does_not_stop_pipeline stC4 0 [] 1 rfl (by norm_num) rfl

/-! ## Claim C2 — helper lemmas -/

lemma setupFold_all_dangling (M : JsMath) (model : StudioModelS)
    (table : List (String × JsVal)) :
    ∀ (pops : List PopulationS) (acc : List SimAgent × List ℚ),
      (∀ pop ∈ pops,
        model.agentTypes.find? (fun t => t.id = pop.agentTypeId) = none) →
      setupFold M model table pops acc = acc := by
  intro pops
  induction pops with
  | nil =>
    intro acc _
    rfl
  | cons p ps ih =>
    intro acc hv
    unfold setupFold
    rw [List.foldl_cons, hv p (List.mem_cons_self _ _)]
    have := ih acc (fun pop hmem => hv pop (List.mem_cons_of_mem _ hmem))
    unfold setupFold at this
    exact this

/-! ## Claim C2 -/

/-- C2 counterexample: compilation does not fail fast.  A model containing a
behavior of unknown kind (`"frobnicate"`) and a population whose
`agentTypeId` dangles compiles without any error: the unknown behavior
compiles to `null` and is silently dropped (the agent type's tick pipeline
becomes a no-op), and the setup silently skips the dangling population while
still creating an Environment with the other population's 3 agents — no
`CompileError` exists anywhere in the compiler, and `initialize` proceeds. -/
theorem compile_silently_skips_cex :
    (compileBehavior mathConst modelC2 unknownBehavior []).1 = none ∧
    (compileAgentTickFunction mathConst modelC2 typeC2 []).1 stC2 = stC2 ∧
    ((compileModel mathConst modelC2 []).setup [] []).1.length = 3 := by
  refine ⟨rfl, by decide, by decide⟩

/-- C2 (amended): `compileModel` has no error channel.  A behavior whose
kind matches none of the fourteen known kinds compiles to `null`
(`compileBehavior`'s `default` case), so the pipeline silently omits it;
and the compiled setup silently skips (`continue`) every population whose
`agentTypeId` matches no agent type, still producing an (empty, but valid)
Environment rather than failing the `initialize` call. -/
theorem compile_skips_unknown (M : JsMath) (model : StudioModelS)
    (b : BehaviorS) (crng : List ℚ)
    (table : List (String × JsVal)) (rng : List ℚ)
    (hb : b.type ∉ knownBehaviorKinds)
    (hpops : ∀ pop ∈ model.populations,
      model.agentTypes.find? (fun t => t.id = pop.agentTypeId) = none) :
    (compileBehavior M model b crng).1 = none ∧
    runSetup M model table rng = ([], rng) := by
  constructor
  · obtain ⟨ty, params, en⟩ := b
    simp only [knownBehaviorKinds, List.mem_cons, List.mem_singleton,
      not_or] at hb
    unfold compileBehavior
    split <;> simp_all
  · unfold runSetup
    exact setupFold_all_dangling M model table model.populations ([], rng)
      hpops

/-- Witness for C2's amended theorem: the `frobnicate` behavior and the
all-dangling model. -/
theorem compile_skips_unknown_witness :
    (compileBehavior mathConst modelGhost unknownBehavior []).1 = none ∧
    runSetup mathConst modelGhost [] [] = ([], []) :=
  compile_skips_unknown mathConst modelGhost unknownBehavior [] [] []
    (by decide) (by decide)

end FloccStudio
